import Mathlib

/-!
Verification of the task-orchestration core of a Coordinator/Worker system
that drives an AI-assistant CLI from a chat surface.

The development shallowly embeds the TypeScript sources:
  packages/common/src/types.ts, constants.ts, protocol.ts
  packages/coordinator/src/task/queue.ts, task/manager.ts
  packages/coordinator/src/worker registry (ws module)
  packages/worker/src/claude/parser.ts, executor.ts
  packages/worker/src/index.ts (WorkerApp)

JavaScript `number` is modelled as `Int`, `string` as `String` (or
`List Char` where line-splitting structure matters), `undefined`-able
values as `Option`, and the mutable objects as explicit state records.
I/O side effects (socket writes, timers) are modelled as data: an
outbox list of sent messages and a list of armed timers.
-/

namespace ClaudeDiscord

/-! ## packages/common/src/types.ts -/

/-- TaskStatus enum from types.ts. -/
inductive TaskStatus where
  | queued
  | running
  | completed
  | failed
  | cancelled
  deriving DecidableEq, Repr

/-- WorkerStatus enum from types.ts. -/
inductive WorkerStatus where
  | online
  | busy
  | offline
  deriving DecidableEq, Repr

/-- PermissionMode enum from types.ts. -/
inductive PermissionMode where
  | acceptEdits
  | auto
  | confirm
  deriving DecidableEq, Repr

/-- Status of a tool-history entry: "running" | "completed" | "error". -/
inductive ToolStatus where
  | running
  | completed
  | error
  deriving DecidableEq, Repr

/-- TokenUsage record from types.ts (all JS numbers, modelled as Int). -/
structure TokenUsage where
  inputTokens : Int
  outputTokens : Int
  cacheReadTokens : Int
  cacheWriteTokens : Int
  deriving DecidableEq, Repr

/-- ToolHistoryEntry record from types.ts. -/
structure ToolHistoryEntry where
  toolName : String
  summary : String
  status : ToolStatus
  timestamp : Int
  deriving DecidableEq, Repr

/-- FileAttachment record from types.ts. -/
structure FileAttachment where
  fileName : String
  mimeType : String
  size : Int
  cdnUrl : String
  localPath : Option String
  deriving DecidableEq, Repr

/-- Task record from types.ts. -/
structure Task where
  id : String
  prompt : String
  status : TaskStatus
  workerId : Option String
  cwd : Option String
  permissionMode : PermissionMode
  teamMode : Bool
  continueSession : Bool
  sessionId : Option String
  attachments : List FileAttachment
  toolHistory : List ToolHistoryEntry
  resultText : Option String
  errorMessage : Option String
  tokenUsage : TokenUsage
  discordMessageId : Option String
  discordThreadId : Option String
  requestedBy : String
  createdAt : Int
  startedAt : Option Int
  completedAt : Option Int
  deriving DecidableEq, Repr

/-- WorkerInfo record from types.ts. -/
structure WorkerInfo where
  id : String
  name : String
  status : WorkerStatus
  currentTaskId : Option String
  os : String
  nodeVersion : String
  claudeCliVersion : String
  defaultCwd : String
  allowedDirs : List String
  lastHeartbeat : Int
  connectedAt : Int
  deriving DecidableEq, Repr

/-! ## packages/common/src/constants.ts -/

def TASK_DEFAULT_TIMEOUT_MS : Int := 600000

def TASK_MAX_QUEUE_SIZE : Nat := 50

def DISCORD_STATUS_UPDATE_INTERVAL_MS : Int := 1000

/-! ## packages/coordinator/src/task/queue.ts

The TaskQueue class holds a private `queue: string[]`; each method is
embedded as a function from the queue state to (new state, return value). -/

namespace TaskQueue

/-- TaskQueue.enqueue: reject when the queue already has
TASK_MAX_QUEUE_SIZE entries, otherwise push at the tail. -/
def enqueue (queue : List String) (taskId : String) : List String × Bool :=
  if queue.length ≥ TASK_MAX_QUEUE_SIZE then
    (queue, false)
  else
    (queue ++ [taskId], true)

/-- TaskQueue.dequeue: shift from the front, null when empty. -/
def dequeue (queue : List String) : List String × Option String :=
  match queue with
  | [] => ([], none)
  | x :: rest => (rest, some x)

/-- TaskQueue.remove: splice out the first occurrence of taskId
(indexOf + splice); false when absent. -/
def remove (queue : List String) (taskId : String) : List String × Bool :=
  if taskId ∈ queue then (queue.erase taskId, true) else (queue, false)

/-- TaskQueue.isEmpty. -/
def isEmpty (queue : List String) : Bool :=
  queue.length = 0

end TaskQueue

/-! ## packages/common/src/protocol.ts

`parseMessage` runs `JSON.parse` and then checks
`if (!msg.type || msg.payload === undefined || !msg.timestamp) throw`.
We embed the decoded JSON value and JavaScript truthiness; a field that
is absent from the decoded object reads as `undefined`, modelled as
`none`. -/

/-- A decoded JSON value (JS numbers restricted to integers, which covers
every value the protocol produces). -/
inductive JsValue where
  | null
  | bool (b : Bool)
  | num (n : Int)
  | str (s : String)
  | arr (elems : List JsValue)
  | obj (fields : List (String × JsValue))

/-- JavaScript truthiness of a defined value: null, false, 0 and ""
are falsy; arrays and objects are always truthy. -/
def jsTruthy : JsValue → Bool
  | .null => false
  | .bool b => b
  | .num n => n != 0
  | .str s => s != ""
  | .arr _ => true
  | .obj _ => true

/-- JavaScript truthiness of a possibly-undefined value. -/
def jsTruthyOpt : Option JsValue → Bool
  | none => false
  | some v => jsTruthy v

/-- The three envelope fields `parseMessage` inspects, each possibly
absent (`undefined`). -/
structure RawWsMessage where
  type : Option JsValue
  payload : Option JsValue
  timestamp : Option JsValue

/-- parseMessage from protocol.ts:
`if (!msg.type || msg.payload === undefined || !msg.timestamp) throw`. -/
def parseMessage (msg : RawWsMessage) : Except String RawWsMessage :=
  if !jsTruthyOpt msg.type || msg.payload.isNone || !jsTruthyOpt msg.timestamp then
    Except.error "Invalid WsMessage: missing required fields"
  else
    Except.ok msg

/-- Counterexample for claim C7: an envelope whose payload is present and
equal to null is nevertheless rejected when its (present) timestamp is 0,
because the decoder tests `!msg.timestamp`, which is true for the number
0. -/
theorem parseMessage_zero_timestamp_cex :
    parseMessage
      { type := some (.str "task:cancel"), payload := some .null,
        timestamp := some (.num 0) } =
      Except.error "Invalid WsMessage: missing required fields" := rfl

/-- Claim C7 (amended): the decoder rejects any envelope missing `type`,
`payload` or `timestamp`; an envelope whose payload is present — even
null, 0 or "" — is accepted provided `type` and `timestamp` are truthy
(non-empty type string, non-zero timestamp); and with truthy `type` and
`timestamp`, the undefined-equivalent payload is the only payload value
rejected. -/
theorem parseMessage_spec (m : RawWsMessage) :
    (m.type = none ∨ m.payload = none ∨ m.timestamp = none →
      parseMessage m = Except.error "Invalid WsMessage: missing required fields") ∧
    (jsTruthyOpt m.type = true → jsTruthyOpt m.timestamp = true →
      m.payload.isSome → parseMessage m = Except.ok m) ∧
    (jsTruthyOpt m.type = true → jsTruthyOpt m.timestamp = true →
      (parseMessage m = Except.ok m ↔ m.payload ≠ none)) := by
  refine ⟨fun h => ?_, fun ht hts hp => ?_, fun ht hts => ?_⟩
  · rcases h with h | h | h <;>
      simp [parseMessage, h, jsTruthyOpt, Option.isNone]
  · rw [Option.isSome_iff_exists] at hp
    obtain ⟨v, hv⟩ := hp
    simp [parseMessage, ht, hts, hv]
  · constructor
    · intro hok hnone
      simp [parseMessage, ht, hts, hnone, Option.isNone] at hok
    · intro hne
      rw [Option.ne_none_iff_exists] at hne
      obtain ⟨v, hv⟩ := hne
      simp [parseMessage, ht, hts, ← hv]

/-- Witness for C7 (amended): a concrete envelope with payload null, a
non-empty type and a non-zero timestamp is accepted. -/
theorem parseMessage_spec_witness :
    parseMessage
      { type := some (.str "task:cancel"), payload := some .null,
        timestamp := some (.num 123) } =
      Except.ok
        { type := some (.str "task:cancel"), payload := some .null,
          timestamp := some (.num 123) } :=
  (parseMessage_spec _).2.1 (by decide) (by decide) (by decide)

/-! ## Stream events (types.ts StreamEventType / StreamEventData)

One inductive covers both the Worker parser's `ParsedEvent` and the
`task:stream` payload, which share this shape in the source. The
optional `costUsd` float of ResultData is omitted (floating point). -/

/-- A typed stream event. -/
inductive StreamEvent where
  | assistantMessage (text : String)
  | toolUseBegin (toolName : String) (summary : String)
  | toolUseEnd (toolName : String) (summary : String) (success : Bool)
  | tokenUsage (data : TokenUsage)
  | systemMessage (message : String)
  | result (text : String) (sessionId : Option String)
  | error (message : String)
  | rateLimit (status : String) (resetsAt : Option Int) (rateLimitType : Option String)
  deriving DecidableEq, Repr

/-! ## packages/worker/src/claude/parser.ts

`StreamJsonParser.parse` appends the chunk to the buffer, splits on LF,
keeps the final (possibly incomplete) segment as the new buffer, and for
every complete line trims it, skips it when empty, and otherwise runs
`JSON.parse` + `classifyEvent`. The JSON decode and classification of a
single complete line are abstracted as a function
`classifyLine : List Char → List StreamEvent` (a line that fails to
decode yields `[]`, as the source logs and discards it); the buffering
and splitting logic is embedded exactly. Strings are `List Char` so the
split structure is explicit. -/

/-- JavaScript `String.prototype.split(sep)` for a one-character
separator: all fields are kept, including empty ones. -/
def jsSplit (sep : Char) : List Char → List (List Char)
  | [] => [[]]
  | c :: cs =>
    if c = sep then [] :: jsSplit sep cs
    else (c :: (jsSplit sep cs).headI) :: (jsSplit sep cs).tail

/-- JavaScript `String.prototype.trim()` (whitespace at both ends). -/
def jsTrim (l : List Char) : List Char :=
  ((l.dropWhile Char.isWhitespace).reverse.dropWhile Char.isWhitespace).reverse

namespace StreamJsonParser

/-- Per-line handling inside the parse loop: trim, skip empty lines,
otherwise decode and classify (abstracted as `classifyLine`). -/
def processLine (classifyLine : List Char → List StreamEvent)
    (line : List Char) : List StreamEvent :=
  let trimmed := jsTrim line
  if trimmed.isEmpty then [] else classifyLine trimmed

/-- StreamJsonParser.parse: returns the emitted events and the new
buffer. The source mutates `this.buffer`; here the buffer is passed and
returned explicitly. `lines.pop() ?? ""` is `getLast?.getD []`. -/
def parse (classifyLine : List Char → List StreamEvent)
    (buffer chunk : List Char) : List StreamEvent × List Char :=
  let lines := jsSplit '\n' (buffer ++ chunk)
  ((lines.dropLast.map (processLine classifyLine)).flatten,
    lines.getLast?.getD [])

end StreamJsonParser

/-! Helper lemmas about `jsSplit`, and a left-to-right machine view of
the parser used to prove chunking invariance. -/

theorem jsSplit_ne_nil (sep : Char) : ∀ l : List Char, jsSplit sep l ≠ []
  | [] => by simp [jsSplit]
  | c :: cs => by by_cases h : c = sep <;> simp [jsSplit, h]

theorem jsSplit_of_not_mem (sep : Char) :
    ∀ l : List Char, sep ∉ l → jsSplit sep l = [l]
  | [], _ => by simp [jsSplit]
  | c :: cs, h => by
    have hc : ¬c = sep := fun hcs => h (hcs ▸ List.mem_cons_self c cs)
    have hcs' : sep ∉ cs := fun hm => h (List.mem_cons_of_mem c hm)
    simp [jsSplit, hc, jsSplit_of_not_mem sep cs hcs', List.headI]

theorem jsSplit_append_sep_cons (sep : Char) :
    ∀ x y : List Char, sep ∉ x →
      jsSplit sep (x ++ sep :: y) = x :: jsSplit sep y
  | [], y, _ => by simp [jsSplit]
  | c :: x, y, h => by
    have hc : ¬c = sep := fun hcs => h (hcs ▸ List.mem_cons_self c x)
    have hx : sep ∉ x := fun hm => h (List.mem_cons_of_mem c hm)
    simp [jsSplit, hc, jsSplit_append_sep_cons sep x y hx, List.headI,
      jsSplit_ne_nil]

theorem sep_not_mem_jsSplit_getLast (sep : Char) :
    ∀ l : List Char, sep ∉ ((jsSplit sep l).getLast?.getD [])
  | [] => by simp [jsSplit]
  | c :: cs => by
    have IH := sep_not_mem_jsSplit_getLast sep cs
    have hne := jsSplit_ne_nil sep cs
    obtain ⟨s, S', hS⟩ := List.exists_cons_of_ne_nil hne
    by_cases h : c = sep
    · simpa [jsSplit, h, hS, List.getLast?_cons_cons] using IH
    · cases S' with
      | nil =>
        simp only [hS, List.getLast?_singleton, Option.getD_some] at IH
        simp only [jsSplit, if_neg h, hS, List.headI, List.tail_cons,
          List.getLast?_singleton, Option.getD_some, List.mem_cons]
        rintro (hcs | hm)
        · exact h hcs.symm
        · exact IH hm
      | cons t T =>
        simpa [jsSplit, h, hS, List.getLast?_cons_cons] using IH

namespace StreamJsonParser

/-- One step of the equivalent left-to-right machine: state is
(events so far, pending line). -/
def stepChar (classifyLine : List Char → List StreamEvent)
    (st : List StreamEvent × List Char) (c : Char) :
    List StreamEvent × List Char :=
  if c = '\n' then (st.1 ++ processLine classifyLine st.2, [])
  else (st.1, st.2 ++ [c])

/-- Run the machine over a chunk. -/
def run (classifyLine : List Char → List StreamEvent)
    (st : List StreamEvent × List Char) (chunk : List Char) :
    List StreamEvent × List Char :=
  chunk.foldl (stepChar classifyLine) st

theorem run_eq_parse (classifyLine : List Char → List StreamEvent) :
    ∀ (s buf : List Char) (e : List StreamEvent), '\n' ∉ buf →
      run classifyLine (e, buf) s =
        (e ++ (parse classifyLine buf s).1, (parse classifyLine buf s).2)
  | [], buf, e, hbuf => by
    simp [run, parse, jsSplit_of_not_mem '\n' buf hbuf]
  | c :: s, buf, e, hbuf => by
    by_cases h : c = '\n'
    · subst h
      have IH := run_eq_parse classifyLine s [] (e ++ processLine classifyLine buf)
        (by simp)
      have hsplit := jsSplit_append_sep_cons '\n' buf s hbuf
      have hne := jsSplit_ne_nil '\n' s
      obtain ⟨t, T, hT⟩ := List.exists_cons_of_ne_nil hne
      simp only [run, List.foldl_cons] at IH ⊢
      rw [show stepChar classifyLine (e, buf) '\n' =
          (e ++ processLine classifyLine buf, []) from by simp [stepChar]]
      rw [IH]
      simp only [parse, hsplit, hT, List.getLast?_cons_cons, List.dropLast_cons₂,
        List.map_cons, List.flatten_cons, List.nil_append, List.append_assoc]
    · have hbuf' : '\n' ∉ buf ++ [c] := by
        simp only [List.mem_append, List.mem_singleton]
        rintro (hm | hc)
        · exact hbuf hm
        · exact h hc.symm
      have IH := run_eq_parse classifyLine s (buf ++ [c]) e hbuf'
      have harr : buf ++ c :: s = (buf ++ [c]) ++ s := by simp
      simp only [run, List.foldl_cons, stepChar, if_neg h] at *
      rw [IH]
      simp only [parse, harr]

end StreamJsonParser

/-- Claim C5: the stream parser is chunking-invariant. For every split of
an input into chunks a and b, feeding a then b to `parse` on a fresh
parser (empty buffer), carrying the returned buffer across the boundary,
yields the same concatenated event sequence — and the same final buffer —
as feeding a ++ b in a single chunk. -/
theorem parser_chunking_invariant
    (classifyLine : List Char → List StreamEvent) (a b : List Char) :
    (StreamJsonParser.parse classifyLine [] a).1 ++
        (StreamJsonParser.parse classifyLine
          (StreamJsonParser.parse classifyLine [] a).2 b).1 =
      (StreamJsonParser.parse classifyLine [] (a ++ b)).1 ∧
    (StreamJsonParser.parse classifyLine
        (StreamJsonParser.parse classifyLine [] a).2 b).2 =
      (StreamJsonParser.parse classifyLine [] (a ++ b)).2 := by
  have hnil : ('\n' : Char) ∉ ([] : List Char) := by simp
  have h1 := StreamJsonParser.run_eq_parse classifyLine a [] [] hnil
  have hb1 : '\n' ∉ (StreamJsonParser.parse classifyLine [] a).2 := by
    simpa [StreamJsonParser.parse] using sep_not_mem_jsSplit_getLast '\n' a
  have h2 := StreamJsonParser.run_eq_parse classifyLine b
    (StreamJsonParser.parse classifyLine [] a).2
    (StreamJsonParser.parse classifyLine [] a).1 hb1
  have h3 := StreamJsonParser.run_eq_parse classifyLine (a ++ b) [] [] hnil
  have hsplitrun : StreamJsonParser.run classifyLine ([], []) (a ++ b) =
      StreamJsonParser.run classifyLine
        (StreamJsonParser.run classifyLine ([], []) a) b := by
    simp [StreamJsonParser.run, List.foldl_append]
  rw [h1] at hsplitrun
  simp only [List.nil_append] at hsplitrun h3
  rw [h3, h2] at hsplitrun
  rw [Prod.mk.injEq] at hsplitrun
  exact ⟨hsplitrun.1.symm, hsplitrun.2.symm⟩

/-! ## packages/worker/src/claude/executor.ts -/

/-- ExecuteOptions from executor.ts. `sessionId: string | null`. -/
structure ExecuteOptions where
  prompt : String
  cwd : String
  permissionMode : PermissionMode
  teamMode : Bool
  sessionId : Option String
  attachmentPaths : List String
  deriving DecidableEq, Repr

/-- JavaScript truthiness of a nullable string: null/undefined and ""
are falsy. -/
def jsTruthyStr : Option String → Bool
  | none => false
  | some s => s != ""

namespace ClaudeExecutor

/-- ClaudeExecutor.buildArgs: prompt (with attachment references
appended), the fixed flags, `--dangerouslySkipPermissions` when the
permission mode is auto, `--resume <sessionId>` when a session id is
truthy. -/
def buildArgs (options : ExecuteOptions) : List String :=
  let prompt :=
    if options.attachmentPaths.length > 0 then
      options.prompt ++ "\n\n" ++
        String.intercalate "\n"
          (options.attachmentPaths.map (fun p => "[Attached file: " ++ p ++ "]"))
    else options.prompt
  let args := ["-p", prompt, "--output-format", "stream-json", "--verbose"]
  let args :=
    if options.permissionMode = PermissionMode.auto then
      args ++ ["--dangerouslySkipPermissions"]
    else args
  let args :=
    match options.sessionId with
    | some sid => if sid = "" then args else args ++ ["--resume", sid]
    | none => args
  args

end ClaudeExecutor

/-- The attachment suffix exactly as the claim words it: the attachment
paths rendered as `[Attached file: <localPath>]` lines, appended to the
prompt after a blank line (empty when there are no attachments). This
definition follows the spec sentence and is the comparison target for
claim C8. -/
def specAttachmentText (attachmentPaths : List String) : String :=
  if attachmentPaths.isEmpty then ""
  else "\n\n" ++ String.intercalate "\n"
    (attachmentPaths.map (fun p => "[Attached file: " ++ p ++ "]"))

/-- Claim C8: the argument vector contains `-p <prompt>`,
`--output-format stream-json` and `--verbose` (in that order, first);
`--dangerouslySkipPermissions` appears exactly when the permission mode
is auto; `--resume <sessionId>` appears exactly when a (truthy) session
id is provided; and the attachment paths are appended to the prompt text
as `[Attached file: <localPath>]` lines after a blank line. -/
theorem buildArgs_spec (options : ExecuteOptions) :
    ClaudeExecutor.buildArgs options =
      ["-p", options.prompt ++ specAttachmentText options.attachmentPaths,
        "--output-format", "stream-json", "--verbose"] ++
      (if options.permissionMode = PermissionMode.auto then
        ["--dangerouslySkipPermissions"] else []) ++
      (match options.sessionId with
        | some sid => if sid = "" then [] else ["--resume", sid]
        | none => []) := by
  unfold ClaudeExecutor.buildArgs specAttachmentText
  rcases options with ⟨prompt, cwd, permissionMode, teamMode, sessionId, attachmentPaths⟩
  cases attachmentPaths with
  | nil =>
    simp only [List.length_nil, gt_iff_lt, Nat.lt_irrefl, if_false, List.isEmpty_nil,
      if_true, String.append_empty]
    cases sessionId with
    | none => by_cases h : permissionMode = PermissionMode.auto <;> simp [h]
    | some sid =>
      by_cases h : permissionMode = PermissionMode.auto <;>
        by_cases hs : sid = "" <;> simp [h, hs]
  | cons p ps =>
    simp only [List.length_cons, List.isEmpty_cons, gt_iff_lt, Nat.succ_pos, if_true,
      Bool.false_eq_true, if_false]
    cases sessionId with
    | none =>
      by_cases h : permissionMode = PermissionMode.auto <;>
        simp [h, String.append_assoc]
    | some sid =>
      by_cases h : permissionMode = PermissionMode.auto <;>
        by_cases hs : sid = "" <;> simp [h, hs, String.append_assoc]

/-! ## packages/worker/src/index.ts (WorkerApp)

The WorkerApp fields touched by stream/exit handling, with the messages
passed to `wsClient.send` collected in a list. Timer and socket effects
(`setStatus`, `startTaskTimeout`, temp-file cleanup) are operational side
effects outside the data model. -/

/-- The WorkerApp mutable fields used by handleStreamEvent and
handleProcessExit. -/
structure WorkerTaskState where
  currentTaskId : Option String
  taskStartTime : Int
  accumulatedTokens : TokenUsage
  lastResultText : String
  lastSessionId : Option String
  stderrBuffer : String
  deriving DecidableEq, Repr

/-- Payload of a message the Worker sends to the Coordinator. -/
inductive WorkerOutPayload where
  | stream (event : StreamEvent)
  | complete (resultText : String) (sessionId : Option String)
      (tokenUsage : TokenUsage) (durationMs : Int)
  | errorOut (message : String) (code : String) (partialResult : Option String)
      (tokenUsage : TokenUsage)
  | question (question : String) (options : Option (List String)) (questionId : String)
  deriving DecidableEq, Repr

/-- A message handed to wsClient.send (type, payload, taskId). -/
structure WorkerSent where
  type : String
  payload : WorkerOutPayload
  taskId : String
  deriving DecidableEq, Repr

/-- Component-wise sum, mirroring the `+=` lines of handleStreamEvent. -/
def addTokenUsage (acc d : TokenUsage) : TokenUsage :=
  { inputTokens := acc.inputTokens + d.inputTokens,
    outputTokens := acc.outputTokens + d.outputTokens,
    cacheReadTokens := acc.cacheReadTokens + d.cacheReadTokens,
    cacheWriteTokens := acc.cacheWriteTokens + d.cacheWriteTokens }

namespace WorkerApp

/-- WorkerApp.handleStreamEvent: accumulate token_usage into the
accumulator, remember the last result text/session id, send a
task:question when an AskUserQuestion tool begins (`questionId` is a
random UUID, passed in here), and relay the event as task:stream —
sending the cumulative accumulator snapshot for token_usage events. -/
def handleStreamEvent (st : WorkerTaskState) (event : StreamEvent)
    (questionId : String) : WorkerTaskState × List WorkerSent :=
  match st.currentTaskId with
  | none => (st, [])
  | some taskId =>
    let st1 :=
      match event with
      | .tokenUsage d =>
        { st with accumulatedTokens := addTokenUsage st.accumulatedTokens d }
      | _ => st
    let st2 :=
      match event with
      | .result text sessionId =>
        { st1 with lastResultText := text, lastSessionId := sessionId }
      | _ => st1
    let questionMsgs : List WorkerSent :=
      match event with
      | .toolUseBegin toolName summary =>
        if toolName = "AskUserQuestion" then
          let q := if summary.startsWith "Question: " then
              summary.drop ("Question: ".length)
            else summary
          [{ type := "task:question", payload := .question q none questionId,
             taskId := taskId }]
        else []
      | _ => []
    let streamPayload :=
      match event with
      | .tokenUsage _ => StreamEvent.tokenUsage st2.accumulatedTokens
      | e => e
    (st2, questionMsgs ++
      [{ type := "task:stream", payload := .stream streamPayload, taskId := taskId }])

/-- JS template rendering of a nullable exit code (`${code}`). -/
def jsShowCode : Option Int → String
  | some n => toString n
  | none => "null"

/-- JS template rendering of a nullable signal (`${signal}`). -/
def jsShowSignal : Option String → String
  | some s => s
  | none => "null"

/-- WorkerApp.handleProcessExit: classify the child exit. Success when
`code === 0 || (code === null && signal === null)`, else task:error with
code `EXIT_${code ?? signal ?? "UNKNOWN"}`. Returns the new state and
the sent messages. -/
def handleProcessExit (st : WorkerTaskState) (code : Option Int)
    (signal : Option String) (now : Int) : WorkerTaskState × List WorkerSent :=
  match st.currentTaskId with
  | none => (st, [])
  | some taskId =>
    let durationMs := now - st.taskStartTime
    if code = some 0 ∨ (code = none ∧ signal = none) then
      ({ st with currentTaskId := none },
        [{ type := "task:complete",
           payload := .complete st.lastResultText st.lastSessionId
             st.accumulatedTokens durationMs,
           taskId := taskId }])
    else
      let exitTag :=
        match code with
        | some n => toString n
        | none =>
          match signal with
          | some s => s
          | none => "UNKNOWN"
      let message :=
        if st.stderrBuffer.trim = "" then
          "Process exited with code " ++ jsShowCode code ++ ", signal " ++
            jsShowSignal signal
        else st.stderrBuffer.trim
      let partialResult :=
        if st.lastResultText = "" then none else some st.lastResultText
      ({ st with currentTaskId := none },
        [{ type := "task:error",
           payload := .errorOut message ("EXIT_" ++ exitTag) partialResult
             st.accumulatedTokens,
           taskId := taskId }])

end WorkerApp

/-- Claim C9: on child-process exit (where, per the Node contract,
exactly one of exit code and signal is non-null), the Worker emits
task:complete — with the last-seen result text, session id and
accumulated tokens — exactly when the exit code is 0 with no signal; for
a non-zero exit code it emits task:error with code `EXIT_<n>`, and for a
signal termination task:error with code `EXIT_<signal>`, each carrying
the partial result and the accumulated tokens. -/
theorem handleProcessExit_spec (st : WorkerTaskState) (code : Option Int)
    (signal : Option String) (now : Int) (taskId : String)
    (htask : st.currentTaskId = some taskId)
    (hdom : (∃ n, code = some n ∧ signal = none) ∨
      (code = none ∧ ∃ s, signal = some s)) :
    ((WorkerApp.handleProcessExit st code signal now).2 =
        [{ type := "task:complete",
           payload := .complete st.lastResultText st.lastSessionId
             st.accumulatedTokens (now - st.taskStartTime),
           taskId := taskId }] ↔ code = some 0 ∧ signal = none) ∧
    (∀ n, code = some n → n ≠ 0 →
      (WorkerApp.handleProcessExit st code signal now).2 =
        [{ type := "task:error",
           payload := .errorOut
             (if st.stderrBuffer.trim = "" then
                "Process exited with code " ++ WorkerApp.jsShowCode code ++
                  ", signal " ++ WorkerApp.jsShowSignal signal
              else st.stderrBuffer.trim)
             ("EXIT_" ++ toString n)
             (if st.lastResultText = "" then none else some st.lastResultText)
             st.accumulatedTokens,
           taskId := taskId }]) ∧
    (∀ s, code = none → signal = some s →
      (WorkerApp.handleProcessExit st code signal now).2 =
        [{ type := "task:error",
           payload := .errorOut
             (if st.stderrBuffer.trim = "" then
                "Process exited with code " ++ WorkerApp.jsShowCode code ++
                  ", signal " ++ WorkerApp.jsShowSignal signal
              else st.stderrBuffer.trim)
             ("EXIT_" ++ s)
             (if st.lastResultText = "" then none else some st.lastResultText)
             st.accumulatedTokens,
           taskId := taskId }]) := by
  refine ⟨?_, fun n hc hn => ?_, fun s hc hs => ?_⟩
  · constructor
    · intro hmsg
      rcases hdom with ⟨n, hc, hs⟩ | ⟨hc, s, hs⟩
      · subst hc; subst hs
        by_cases hn : n = 0
        · exact ⟨by rw [hn], rfl⟩
        · simp only [WorkerApp.handleProcessExit, htask] at hmsg
          simp [hn] at hmsg
      · subst hc; subst hs
        simp only [WorkerApp.handleProcessExit, htask] at hmsg
        simp at hmsg
    · rintro ⟨hc, hs⟩
      subst hc; subst hs
      simp [WorkerApp.handleProcessExit, htask]
  · subst hc
    have hs : signal = none := by
      rcases hdom with ⟨m, hc', hs'⟩ | ⟨hc', _⟩
      · exact hs'
      · exact absurd hc' (by simp)
    subst hs
    simp only [WorkerApp.handleProcessExit, htask]
    simp [hn]
  · subst hc; subst hs
    simp only [WorkerApp.handleProcessExit, htask]
    simp

/-- Witness for C9: a concrete clean exit (code 0, no signal) emits
task:complete with the remembered result, session id and tokens. -/
theorem handleProcessExit_spec_witness :
    (WorkerApp.handleProcessExit
        { currentTaskId := some "task-1", taskStartTime := 5,
          accumulatedTokens := ⟨1, 2, 3, 4⟩, lastResultText := "hi",
          lastSessionId := some "s1", stderrBuffer := "" }
        (some 0) none 105).2 =
      [{ type := "task:complete",
         payload := .complete "hi" (some "s1") ⟨1, 2, 3, 4⟩ 100,
         taskId := "task-1" }] :=
  (handleProcessExit_spec _ (some 0) none 105 "task-1" rfl
      (Or.inl ⟨0, rfl, rfl⟩)).1.mpr ⟨rfl, rfl⟩

/-! ## Coordinator state: JS Map as an association list

JS `Map` preserves insertion order, `set` overwrites an existing key in
place and appends a new key at the end, `get` returns the first (only)
binding, `delete` removes it. -/

/-- Map.get. -/
def alookup {α : Type} : List (String × α) → String → Option α
  | [], _ => none
  | p :: rest, k => if p.1 = k then some p.2 else alookup rest k

/-- Map.set. -/
def aset {α : Type} : List (String × α) → String → α → List (String × α)
  | [], k, v => [(k, v)]
  | p :: rest, k, v => if p.1 = k then (p.1, v) :: rest else p :: aset rest k v

/-- Map.delete. -/
def aerase {α : Type} (l : List (String × α)) (k : String) : List (String × α) :=
  l.filter (fun p => !(p.1 == k))

theorem alookup_aset_self {α : Type} (l : List (String × α)) (k : String) (v : α) :
    alookup (aset l k v) k = some v := by
  induction l with
  | nil => simp [aset, alookup]
  | cons p rest ih =>
    by_cases h : p.1 = k
    · simp [aset, alookup, h]
    · simp [aset, alookup, h, ih]

theorem alookup_aset_ne {α : Type} (l : List (String × α)) (k k' : String) (v : α)
    (h : k ≠ k') : alookup (aset l k v) k' = alookup l k' := by
  induction l with
  | nil => simp only [aset, alookup, if_neg h]
  | cons p rest ih =>
    by_cases hp : p.1 = k
    · have hp' : ¬p.1 = k' := fun hc => h (hp.symm.trans hc)
      simp only [aset, alookup, if_pos hp, if_neg hp']
    · by_cases hp' : p.1 = k'
      · simp only [aset, alookup, if_neg hp, if_pos hp']
      · simp only [aset, alookup, if_neg hp, if_neg hp']
        exact ih

/-! ## Worker Registry (registry.ts, concatenated into the ws module)

Only the parts the Task Manager calls during dispatch and completion are
embedded: `getAvailableWorker`, `setWorkerStatus`,
`setWorkerCurrentTask`. Socket and heartbeat handling are transport
effects. -/

/-- WorkerRegistry.setWorkerStatus. -/
def setWorkerStatus (workers : List (String × WorkerInfo)) (workerId : String)
    (status : WorkerStatus) : List (String × WorkerInfo) :=
  match alookup workers workerId with
  | some w => aset workers workerId { w with status := status }
  | none => workers

/-- WorkerRegistry.setWorkerCurrentTask. -/
def setWorkerCurrentTask (workers : List (String × WorkerInfo)) (workerId : String)
    (taskId : Option String) : List (String × WorkerInfo) :=
  match alookup workers workerId with
  | some w => aset workers workerId { w with currentTaskId := taskId }
  | none => workers

/-- WorkerRegistry.getAvailableWorker: a truthy preferred id that names
an Online worker wins; otherwise round-robin over the Online workers in
insertion order (index modulo size, then increment). Returns the chosen
worker (if any) and the new round-robin index. -/
def getAvailableWorker (workers : List (String × WorkerInfo)) (rrIndex : Nat)
    (preferredWorkerId : Option String) : Option WorkerInfo × Nat :=
  let preferredResult : Option WorkerInfo :=
    if jsTruthyStr preferredWorkerId then
      match alookup workers (preferredWorkerId.getD "") with
      | some w => if w.status = WorkerStatus.online then some w else none
      | none => none
    else none
  match preferredResult with
  | some w => (some w, rrIndex)
  | none =>
    let onlineWorkers := (workers.map Prod.snd).filter
      (fun w => w.status == WorkerStatus.online)
    if onlineWorkers.length = 0 then (none, rrIndex)
    else
      match onlineWorkers.get? (rrIndex % onlineWorkers.length) with
      | some w => (some w, rrIndex + 1)
      | none => (none, rrIndex + 1)

/-- A worker-bound Coordinator message payload (the two kinds the Task
Manager emits). -/
inductive CoordPayload where
  | assign (taskId : String) (prompt : String) (cwd : Option String)
      (permissionMode : PermissionMode) (teamMode : Bool)
      (continueSession : Bool) (sessionId : Option String)
      (attachments : List FileAttachment)
  | cancel (reason : String)
  deriving DecidableEq, Repr

/-- A message handed to WorkerRegistry.sendToWorker, with the envelope
fields createMessage fills in. -/
structure WsSentMessage where
  target : String
  type : String
  taskId : Option String
  workerId : Option String
  timestamp : Int
  payload : CoordPayload
  deriving DecidableEq, Repr

/-! ## packages/coordinator/src/task/manager.ts -/

/-- The TaskManager's mutable fields plus the registry state it drives,
with socket sends collected in `outbox` and the armed per-task timeout
timers (taskId, delay ms) in `timeoutTimers`. The Discord-embed
throttle timers and the adapter callbacks are UI side effects outside
the data model. -/
structure ManagerState where
  tasks : List (String × Task)
  taskIdCounter : Nat
  queue : List String
  workers : List (String × WorkerInfo)
  roundRobinIndex : Nat
  outbox : List WsSentMessage
  timeoutTimers : List (String × Int)
  deriving DecidableEq, Repr

/-- TaskCreateOptions from manager.ts (optional fields as Options;
`workerId` is accepted and ignored by createTask, as in the source). -/
structure TaskCreateOptions where
  prompt : String
  requestedBy : String
  workerId : Option String
  cwd : Option String
  permissionMode : Option PermissionMode
  teamMode : Option Bool
  continueSession : Option Bool
  sessionId : Option String
  deriving DecidableEq, Repr

namespace TaskManager

/-- The backward walk of the tool_use_end case, expressed on the
reversed history: update the first entry (from the end) whose tool name
matches and whose status is running, then stop. -/
def updateLastRunningEntry (toolName summary : String) (success : Bool) :
    List ToolHistoryEntry → List ToolHistoryEntry
  | [] => []
  | e :: rest =>
    if e.toolName = toolName ∧ e.status = ToolStatus.running then
      { e with
        status := if success then ToolStatus.completed else ToolStatus.error,
        summary := summary } :: rest
    else e :: updateLastRunningEntry toolName summary success rest

/-- The tool_use_end loop of handleStreamUpdate (walk the history
backward, update the most recent matching running entry, break). -/
def toolUseEndUpdate (hist : List ToolHistoryEntry) (toolName summary : String)
    (success : Bool) : List ToolHistoryEntry :=
  (updateLastRunningEntry toolName summary success hist.reverse).reverse

/-- The switch body of handleStreamUpdate, acting on one task (the task
is already known to be Running). `now` is Date.now() for the
tool_use_begin timestamp. -/
def applyStreamEventToTask (t : Task) (now : Int) : StreamEvent → Task
  | .assistantMessage text =>
    { t with resultText := some ((t.resultText.getD "") ++ text) }
  | .toolUseBegin toolName summary =>
    { t with toolHistory := t.toolHistory ++
        [{ toolName := toolName, summary := summary,
           status := ToolStatus.running, timestamp := now }] }
  | .toolUseEnd toolName summary success =>
    { t with toolHistory := toolUseEndUpdate t.toolHistory toolName summary success }
  | .tokenUsage d => { t with tokenUsage := d }
  | .result text sessionId =>
    { t with resultText := some text, sessionId := sessionId }
  | .error message => { t with errorMessage := some message }
  | .systemMessage _ => t
  | .rateLimit _ _ _ => t

/-- TaskManager.handleStreamUpdate: drop updates for unknown or
non-Running tasks, otherwise fold the event into the task. (The
throttled Discord update is a callback side effect.) -/
def handleStreamUpdate (st : ManagerState) (taskId : String) (event : StreamEvent)
    (now : Int) : ManagerState :=
  match alookup st.tasks taskId with
  | none => st
  | some task =>
    if task.status ≠ TaskStatus.running then st
    else { st with tasks := aset st.tasks taskId (applyStreamEventToTask task now event) }

/-- TaskManager.dispatchNext: peek the head, look the task up (dequeue
and stop if the record is gone), ask the registry for a worker (no
preferred hint is passed), and on success pop the head, transition the
task to Running, mark the worker Busy, send task:assign, and arm the
10-minute task timeout. -/
def dispatchNext (st : ManagerState) (now : Int) : ManagerState :=
  match st.queue with
  | [] => st
  | taskId :: rest =>
    if taskId = "" then st
    else
      match alookup st.tasks taskId with
      | none => { st with queue := rest }
      | some task =>
        match getAvailableWorker st.workers st.roundRobinIndex none with
        | (none, rr) => { st with roundRobinIndex := rr }
        | (some worker, rr) =>
          let task1 := { task with
            status := TaskStatus.running,
            workerId := some worker.id, startedAt := some now }
          let assignMsg : WsSentMessage :=
            { target := worker.id, type := "task:assign", taskId := some task1.id,
              workerId := some worker.id, timestamp := now,
              payload := CoordPayload.assign task1.id task1.prompt task1.cwd
                task1.permissionMode task1.teamMode task1.continueSession
                task1.sessionId task1.attachments }
          { st with
            roundRobinIndex := rr,
            queue := rest,
            tasks := aset st.tasks taskId task1,
            workers := setWorkerCurrentTask
              (setWorkerStatus st.workers worker.id WorkerStatus.busy)
              worker.id (some taskId),
            outbox := st.outbox ++ [assignMsg],
            timeoutTimers := aset st.timeoutTimers taskId TASK_DEFAULT_TIMEOUT_MS }

/-- TaskManager.handleTaskComplete (payload fields passed directly).
Ignores unknown / non-Running tasks; otherwise records the result,
releases the worker, clears the timers and dispatches the next task. -/
def handleTaskComplete (st : ManagerState) (taskId : String) (resultText : String)
    (sessionId : Option String) (tokenUsage : TokenUsage) (now : Int) : ManagerState :=
  match alookup st.tasks taskId with
  | none => st
  | some task =>
    if task.status ≠ TaskStatus.running then st
    else
      let task1 := { task with
        status := TaskStatus.completed,
        resultText := some resultText, sessionId := sessionId,
        tokenUsage := tokenUsage, completedAt := some now }
      let st1 := { st with tasks := aset st.tasks taskId task1 }
      let st2 :=
        if jsTruthyStr task1.workerId then
          { st1 with
            workers := setWorkerCurrentTask
              (setWorkerStatus st1.workers (task1.workerId.getD "") WorkerStatus.online)
              (task1.workerId.getD "") none }
        else st1
      dispatchNext { st2 with timeoutTimers := aerase st2.timeoutTimers taskId } now

/-- TaskManager.handleTaskError (payload fields passed directly; the
payload `code` is not read by the manager). -/
def handleTaskError (st : ManagerState) (taskId : String) (message : String)
    (partialResult : Option String) (tokenUsage : TokenUsage) (now : Int) :
    ManagerState :=
  match alookup st.tasks taskId with
  | none => st
  | some task =>
    if task.status ≠ TaskStatus.running then st
    else
      let task1 := { task with
        status := TaskStatus.failed,
        errorMessage := some message,
        resultText := if jsTruthyStr partialResult then partialResult else task.resultText,
        tokenUsage := tokenUsage, completedAt := some now }
      let st1 := { st with tasks := aset st.tasks taskId task1 }
      let st2 :=
        if jsTruthyStr task1.workerId then
          { st1 with
            workers := setWorkerCurrentTask
              (setWorkerStatus st1.workers (task1.workerId.getD "") WorkerStatus.online)
              (task1.workerId.getD "") none }
        else st1
      dispatchNext { st2 with timeoutTimers := aerase st2.timeoutTimers taskId } now

/-- TaskManager.cancelTask: false for unknown or terminal tasks; a
Queued task is dequeued and Cancelled; a Running task with a (truthy)
assigned worker gets a task:cancel message, is Cancelled, and the worker
is released; then timers are cleared, the next task is dispatched, and
true is returned. -/
def cancelTask (st : ManagerState) (taskId reason : String) (now : Int) :
    ManagerState × Bool :=
  match alookup st.tasks taskId with
  | none => (st, false)
  | some task =>
    if task.status = TaskStatus.completed ∨ task.status = TaskStatus.failed ∨
        task.status = TaskStatus.cancelled then
      (st, false)
    else
      let st1 :=
        if task.status = TaskStatus.queued then
          { st with
            queue := (TaskQueue.remove st.queue taskId).1,
            tasks := aset st.tasks taskId
              { task with status := TaskStatus.cancelled, completedAt := some now } }
        else if task.status = TaskStatus.running ∧ jsTruthyStr task.workerId then
          let wid := task.workerId.getD ""
          let cancelMsg : WsSentMessage :=
            { target := wid, type := "task:cancel", taskId := some taskId,
              workerId := some wid, timestamp := now,
              payload := CoordPayload.cancel reason }
          { st with
            outbox := st.outbox ++ [cancelMsg],
            tasks := aset st.tasks taskId
              { task with status := TaskStatus.cancelled, completedAt := some now },
            workers := setWorkerCurrentTask
              (setWorkerStatus st.workers wid WorkerStatus.online) wid none }
        else st
      (dispatchNext { st1 with timeoutTimers := aerase st1.timeoutTimers taskId } now,
        true)

/-- TaskManager.handleWorkerDisconnect: every Running task of that
worker becomes Failed with the disconnect message and its timers are
cleared. -/
def handleWorkerDisconnect (st : ManagerState) (workerId : String) (now : Int) :
    ManagerState :=
  { st with
    tasks := st.tasks.map (fun p =>
      if p.2.workerId = some workerId ∧ p.2.status = TaskStatus.running then
        (p.1, { p.2 with
          status := TaskStatus.failed,
          errorMessage := some "Worker切断により実行が中断されました",
          completedAt := some now })
      else p),
    timeoutTimers := st.timeoutTimers.filter (fun q =>
      !(st.tasks.any (fun p =>
        p.1 == q.1 && p.2.workerId == some workerId &&
          p.2.status == TaskStatus.running))) }

/-- TaskManager.createTask: allocate the next id, build the Queued task
with zeroed counters and empty histories, store it in the task map, and
enqueue the id — discarding enqueue's boolean result, as the source
does. -/
def createTask (st : ManagerState) (options : TaskCreateOptions) (now : Int) :
    ManagerState × Task :=
  let counter := st.taskIdCounter + 1
  let taskId := "task-" ++ toString counter
  let task : Task :=
    { id := taskId, prompt := options.prompt, status := TaskStatus.queued,
      workerId := none, cwd := options.cwd,
      permissionMode := options.permissionMode.getD PermissionMode.acceptEdits,
      teamMode := options.teamMode.getD false,
      continueSession := options.continueSession.getD false,
      sessionId := options.sessionId,
      attachments := [], toolHistory := [], resultText := none,
      errorMessage := none,
      tokenUsage := { inputTokens := 0, outputTokens := 0,
                      cacheReadTokens := 0, cacheWriteTokens := 0 },
      discordMessageId := none, discordThreadId := none,
      requestedBy := options.requestedBy, createdAt := now,
      startedAt := none, completedAt := none }
  ({ st with
      taskIdCounter := counter,
      tasks := aset st.tasks taskId task,
      queue := (TaskQueue.enqueue st.queue taskId).1 },
    task)

end TaskManager

/-- Claim C6: the task queue never holds more than 50 entries: an enqueue
on a queue with 50 ids returns false and leaves the queue unchanged, an
enqueue on a queue with fewer than 50 entries appends the id at the tail
and returns true, and enqueue never grows a queue beyond 50. -/
theorem enqueue_capacity (q : List String) (id : String) :
    (q.length = 50 → TaskQueue.enqueue q id = (q, false)) ∧
    (q.length < 50 → TaskQueue.enqueue q id = (q ++ [id], true)) ∧
    (q.length ≤ 50 → (TaskQueue.enqueue q id).1.length ≤ 50) := by
  refine ⟨fun h => ?_, fun h => ?_, fun h => ?_⟩
  · simp [TaskQueue.enqueue, TASK_MAX_QUEUE_SIZE, h]
  · simp [TaskQueue.enqueue, TASK_MAX_QUEUE_SIZE, Nat.not_le.mpr h]
  · by_cases hfull : q.length ≥ TASK_MAX_QUEUE_SIZE
    · simpa [TaskQueue.enqueue, hfull] using h
    · simp only [TaskQueue.enqueue, if_neg hfull, List.length_append,
        List.length_cons, List.length_nil]
      simp only [TASK_MAX_QUEUE_SIZE, ge_iff_le, Nat.not_le] at hfull
      omega

/-- Witness for C6: a concrete full queue rejects the 51st enqueue, and a
one-element queue appends at the tail. -/
theorem enqueue_capacity_witness :
    TaskQueue.enqueue (List.replicate 50 "t") "x" = (List.replicate 50 "t", false) ∧
    TaskQueue.enqueue ["a"] "b" = (["a", "b"], true) :=
  ⟨(enqueue_capacity (List.replicate 50 "t") "x").1 (by simp),
   (enqueue_capacity ["a"] "b").2.1 (by norm_num)⟩

/-! ## Claim C4: tool_use_end matching -/

theorem updateLastRunningEntry_no_match (tn sm : String) (success : Bool) :
    ∀ l : List ToolHistoryEntry,
      (∀ e ∈ l, ¬(e.toolName = tn ∧ e.status = ToolStatus.running)) →
      TaskManager.updateLastRunningEntry tn sm success l = l
  | [], _ => rfl
  | e :: rest, h => by
    have he : ¬(e.toolName = tn ∧ e.status = ToolStatus.running) :=
      h e (List.mem_cons_self e rest)
    have hrest := updateLastRunningEntry_no_match tn sm success rest
      (fun e2 hm => h e2 (List.mem_cons_of_mem e hm))
    simp [TaskManager.updateLastRunningEntry, he, hrest]

theorem updateLastRunningEntry_first_match (tn sm : String) (success : Bool)
    (e : ToolHistoryEntry) (B : List ToolHistoryEntry)
    (he : e.toolName = tn) (hr : e.status = ToolStatus.running) :
    ∀ A : List ToolHistoryEntry,
      (∀ a ∈ A, ¬(a.toolName = tn ∧ a.status = ToolStatus.running)) →
      TaskManager.updateLastRunningEntry tn sm success (A ++ e :: B) =
        A ++ { e with
          status := if success then ToolStatus.completed else ToolStatus.error,
          summary := sm } :: B
  | [], _ => by
    simp [TaskManager.updateLastRunningEntry, he, hr]
  | a :: A, h => by
    have ha : ¬(a.toolName = tn ∧ a.status = ToolStatus.running) :=
      h a (List.mem_cons_self a A)
    have hA := updateLastRunningEntry_first_match tn sm success e B he hr A
      (fun a2 hm => h a2 (List.mem_cons_of_mem a hm))
    simp [TaskManager.updateLastRunningEntry, ha, hA]

/-- Claim C4: while a task is Running, a tool_use_end stream event
updates exactly the most recent tool-history entry whose tool name
matches and whose status is running — replacing its summary and setting
its status to completed when success is true and error otherwise — with
every other entry unchanged and the order preserved; when no entry
matches, the history (and the task) is unchanged. -/
theorem toolUseEnd_spec (st : ManagerState) (taskId : String) (t : Task)
    (now : Int) (tn sm : String) (success : Bool)
    (hlk : alookup st.tasks taskId = some t)
    (hrun : t.status = TaskStatus.running) :
    (∀ pre e post, t.toolHistory = pre ++ e :: post →
      e.toolName = tn → e.status = ToolStatus.running →
      (∀ e2 ∈ post, ¬(e2.toolName = tn ∧ e2.status = ToolStatus.running)) →
      alookup (TaskManager.handleStreamUpdate st taskId
          (StreamEvent.toolUseEnd tn sm success) now).tasks taskId =
        some { t with toolHistory := pre ++ { e with
          status := if success then ToolStatus.completed else ToolStatus.error,
          summary := sm } :: post }) ∧
    ((∀ e2 ∈ t.toolHistory, ¬(e2.toolName = tn ∧ e2.status = ToolStatus.running)) →
      alookup (TaskManager.handleStreamUpdate st taskId
          (StreamEvent.toolUseEnd tn sm success) now).tasks taskId = some t) := by
  have hne : ¬t.status ≠ TaskStatus.running := by simp [hrun]
  constructor
  · intro pre e post hdecomp he hr hpost
    have hrev : t.toolHistory.reverse = post.reverse ++ e :: pre.reverse := by
      rw [hdecomp]; simp
    have hupd := updateLastRunningEntry_first_match tn sm success e pre.reverse
      he hr post.reverse (fun a hm => hpost a (List.mem_reverse.mp hm))
    have hhist : TaskManager.toolUseEndUpdate t.toolHistory tn sm success =
        pre ++ { e with
          status := if success then ToolStatus.completed else ToolStatus.error,
          summary := sm } :: post := by
      rw [TaskManager.toolUseEndUpdate, hrev, hupd]
      simp
    simp only [TaskManager.handleStreamUpdate, hlk, hne,
      TaskManager.applyStreamEventToTask, hhist]
    simp [alookup_aset_self]
  · intro hnone
    have hupd := updateLastRunningEntry_no_match tn sm success t.toolHistory.reverse
      (fun a hm => hnone a (List.mem_reverse.mp hm))
    have hhist : TaskManager.toolUseEndUpdate t.toolHistory tn sm success =
        t.toolHistory := by
      rw [TaskManager.toolUseEndUpdate, hupd]
      simp
    simp only [TaskManager.handleStreamUpdate, hlk, hne,
      TaskManager.applyStreamEventToTask, hhist]
    simp [alookup_aset_self]

/-- Witness for C4: the interleaved scenario begin Read, begin Bash, end
Bash — the end event updates the Bash entry (the most recent matching
running entry) and leaves the Read entry running and in place. -/
theorem toolUseEnd_spec_witness :
    alookup (TaskManager.handleStreamUpdate
        { tasks := [("task-1",
            { id := "task-1", prompt := "hello", status := TaskStatus.running,
              workerId := some "w1", cwd := none,
              permissionMode := PermissionMode.acceptEdits, teamMode := false,
              continueSession := false, sessionId := none, attachments := [],
              toolHistory := [⟨"Read", "Read: /a", ToolStatus.running, 1⟩,
                ⟨"Bash", "Bash: x", ToolStatus.running, 2⟩],
              resultText := none, errorMessage := none,
              tokenUsage := ⟨0, 0, 0, 0⟩, discordMessageId := none,
              discordThreadId := none, requestedBy := "u1", createdAt := 0,
              startedAt := some 1, completedAt := none })],
          taskIdCounter := 1, queue := [], workers := [],
          roundRobinIndex := 0, outbox := [], timeoutTimers := [] }
        "task-1" (StreamEvent.toolUseEnd "Bash" "ok" true) 3).tasks "task-1" =
      some
        { id := "task-1", prompt := "hello", status := TaskStatus.running,
          workerId := some "w1", cwd := none,
          permissionMode := PermissionMode.acceptEdits, teamMode := false,
          continueSession := false, sessionId := none, attachments := [],
          toolHistory := [⟨"Read", "Read: /a", ToolStatus.running, 1⟩,
            ⟨"Bash", "ok", ToolStatus.completed, 2⟩],
          resultText := none, errorMessage := none,
          tokenUsage := ⟨0, 0, 0, 0⟩, discordMessageId := none,
          discordThreadId := none, requestedBy := "u1", createdAt := 0,
          startedAt := some 1, completedAt := none } :=
  (toolUseEnd_spec
    { tasks := [("task-1",
        { id := "task-1", prompt := "hello", status := TaskStatus.running,
          workerId := some "w1", cwd := none,
          permissionMode := PermissionMode.acceptEdits, teamMode := false,
          continueSession := false, sessionId := none, attachments := [],
          toolHistory := [⟨"Read", "Read: /a", ToolStatus.running, 1⟩,
            ⟨"Bash", "Bash: x", ToolStatus.running, 2⟩],
          resultText := none, errorMessage := none,
          tokenUsage := ⟨0, 0, 0, 0⟩, discordMessageId := none,
          discordThreadId := none, requestedBy := "u1", createdAt := 0,
          startedAt := some 1, completedAt := none })],
      taskIdCounter := 1, queue := [], workers := [],
      roundRobinIndex := 0, outbox := [], timeoutTimers := [] }
    "task-1"
    { id := "task-1", prompt := "hello", status := TaskStatus.running,
      workerId := some "w1", cwd := none,
      permissionMode := PermissionMode.acceptEdits, teamMode := false,
      continueSession := false, sessionId := none, attachments := [],
      toolHistory := [⟨"Read", "Read: /a", ToolStatus.running, 1⟩,
        ⟨"Bash", "Bash: x", ToolStatus.running, 2⟩],
      resultText := none, errorMessage := none,
      tokenUsage := ⟨0, 0, 0, 0⟩, discordMessageId := none,
      discordThreadId := none, requestedBy := "u1", createdAt := 0,
      startedAt := some 1, completedAt := none }
    3 "Bash" "ok" true rfl rfl).1
    [⟨"Read", "Read: /a", ToolStatus.running, 1⟩]
    ⟨"Bash", "Bash: x", ToolStatus.running, 2⟩ [] rfl rfl rfl
    (by intro e2 hm; simp at hm)

/-! ## Claim C2: dispatchNext -/

theorem getAvailableWorker_none_rr (ws : List (String × WorkerInfo)) (rr : Nat)
    (h : (getAvailableWorker ws rr none).1 = none) :
    (getAvailableWorker ws rr none).2 = rr := by
  unfold getAvailableWorker at h ⊢
  simp only [jsTruthyStr, Bool.false_eq_true, if_false] at h ⊢
  by_cases hlen : ((ws.map Prod.snd).filter
      (fun w => w.status == WorkerStatus.online)).length = 0
  · simp [hlen]
  · exfalso
    have hlt : rr % ((ws.map Prod.snd).filter
        (fun w => w.status == WorkerStatus.online)).length <
        ((ws.map Prod.snd).filter (fun w => w.status == WorkerStatus.online)).length :=
      Nat.mod_lt _ (Nat.pos_of_ne_zero hlen)
    simp [hlen, List.getElem?_eq_getElem hlt] at h

/-- Claim C2: dispatchNext is a no-op on an empty queue, and a no-op
when the registry has no available worker (the head task stays Queued,
nothing changes); when a worker is available it pops the head,
transitions the Queued head task to Running (setting workerId and
startedAt), marks the worker Busy with currentTaskId the task id, sends
task:assign to that worker, and arms the 600000 ms (10-minute) task
timeout. dispatchNext passes no preferred-worker hint to the registry
(a Task carries none). -/
theorem dispatchNext_spec (st : ManagerState) (now : Int) :
    (st.queue = [] → TaskManager.dispatchNext st now = st) ∧
    (∀ tid rest task, st.queue = tid :: rest → tid ≠ "" →
      alookup st.tasks tid = some task →
      (getAvailableWorker st.workers st.roundRobinIndex none).1 = none →
      TaskManager.dispatchNext st now = st) ∧
    (∀ tid rest task w rr, st.queue = tid :: rest → tid ≠ "" →
      alookup st.tasks tid = some task → task.status = TaskStatus.queued →
      getAvailableWorker st.workers st.roundRobinIndex none = (some w, rr) →
      alookup st.workers w.id = some w →
      (TaskManager.dispatchNext st now).queue = rest ∧
      alookup (TaskManager.dispatchNext st now).tasks tid =
        some { task with status := TaskStatus.running,
                         workerId := some w.id, startedAt := some now } ∧
      alookup (TaskManager.dispatchNext st now).workers w.id =
        some { w with status := WorkerStatus.busy, currentTaskId := some tid } ∧
      (TaskManager.dispatchNext st now).outbox = st.outbox ++
        [{ target := w.id, type := "task:assign", taskId := some task.id,
           workerId := some w.id, timestamp := now,
           payload := CoordPayload.assign task.id task.prompt task.cwd
             task.permissionMode task.teamMode task.continueSession
             task.sessionId task.attachments }] ∧
      alookup (TaskManager.dispatchNext st now).timeoutTimers tid =
        some TASK_DEFAULT_TIMEOUT_MS) := by
  refine ⟨fun h => ?_, fun tid rest task hq htid hlk hnone => ?_,
    fun tid rest task w rr hq htid hlk hst hga hwlk => ?_⟩
  · simp [TaskManager.dispatchNext, h]
  · have hrr := getAvailableWorker_none_rr st.workers st.roundRobinIndex hnone
    have hga : getAvailableWorker st.workers st.roundRobinIndex none =
        (none, st.roundRobinIndex) := by
      rcases hpair : getAvailableWorker st.workers st.roundRobinIndex none with ⟨f, s⟩
      rw [hpair] at hnone hrr
      simp only at hnone hrr
      rw [hnone, hrr]
    simp only [TaskManager.dispatchNext, hq, if_neg htid, hlk, hga]
    rw [← hq]
  · simp only [TaskManager.dispatchNext, hq, if_neg htid, hlk, hga]
    refine ⟨by trivial, ?_, ?_, by trivial, ?_⟩
    · exact alookup_aset_self ..
    · rw [setWorkerCurrentTask, setWorkerStatus, hwlk, alookup_aset_self,
        alookup_aset_self]
    · exact alookup_aset_self ..

/-- Witness for C2: a concrete one-task, one-worker state dispatches the
head task to the worker. -/
theorem dispatchNext_spec_witness :
    (TaskManager.dispatchNext
        { tasks := [("task-1",
            { id := "task-1", prompt := "hello", status := TaskStatus.queued,
              workerId := none, cwd := none,
              permissionMode := PermissionMode.acceptEdits, teamMode := false,
              continueSession := false, sessionId := none, attachments := [],
              toolHistory := [], resultText := none, errorMessage := none,
              tokenUsage := ⟨0, 0, 0, 0⟩, discordMessageId := none,
              discordThreadId := none, requestedBy := "u1", createdAt := 0,
              startedAt := none, completedAt := none })],
          taskIdCounter := 1, queue := ["task-1"],
          workers := [("w1",
            { id := "w1", name := "w1", status := WorkerStatus.online,
              currentTaskId := none, os := "linux", nodeVersion := "v20",
              claudeCliVersion := "1.0.0", defaultCwd := "/home",
              allowedDirs := ["/home"], lastHeartbeat := 0, connectedAt := 0 })],
          roundRobinIndex := 0, outbox := [], timeoutTimers := [] } 7).queue = [] ∧
    alookup (TaskManager.dispatchNext
        { tasks := [("task-1",
            { id := "task-1", prompt := "hello", status := TaskStatus.queued,
              workerId := none, cwd := none,
              permissionMode := PermissionMode.acceptEdits, teamMode := false,
              continueSession := false, sessionId := none, attachments := [],
              toolHistory := [], resultText := none, errorMessage := none,
              tokenUsage := ⟨0, 0, 0, 0⟩, discordMessageId := none,
              discordThreadId := none, requestedBy := "u1", createdAt := 0,
              startedAt := none, completedAt := none })],
          taskIdCounter := 1, queue := ["task-1"],
          workers := [("w1",
            { id := "w1", name := "w1", status := WorkerStatus.online,
              currentTaskId := none, os := "linux", nodeVersion := "v20",
              claudeCliVersion := "1.0.0", defaultCwd := "/home",
              allowedDirs := ["/home"], lastHeartbeat := 0, connectedAt := 0 })],
          roundRobinIndex := 0, outbox := [], timeoutTimers := [] } 7).tasks "task-1" =
      some
        { id := "task-1", prompt := "hello", status := TaskStatus.running,
          workerId := some "w1", cwd := none,
          permissionMode := PermissionMode.acceptEdits, teamMode := false,
          continueSession := false, sessionId := none, attachments := [],
          toolHistory := [], resultText := none, errorMessage := none,
          tokenUsage := ⟨0, 0, 0, 0⟩, discordMessageId := none,
          discordThreadId := none, requestedBy := "u1", createdAt := 0,
          startedAt := some 7, completedAt := none } := by
  have h := (dispatchNext_spec
    { tasks := [("task-1",
        { id := "task-1", prompt := "hello", status := TaskStatus.queued,
          workerId := none, cwd := none,
          permissionMode := PermissionMode.acceptEdits, teamMode := false,
          continueSession := false, sessionId := none, attachments := [],
          toolHistory := [], resultText := none, errorMessage := none,
          tokenUsage := ⟨0, 0, 0, 0⟩, discordMessageId := none,
          discordThreadId := none, requestedBy := "u1", createdAt := 0,
          startedAt := none, completedAt := none })],
      taskIdCounter := 1, queue := ["task-1"],
      workers := [("w1",
        { id := "w1", name := "w1", status := WorkerStatus.online,
          currentTaskId := none, os := "linux", nodeVersion := "v20",
          claudeCliVersion := "1.0.0", defaultCwd := "/home",
          allowedDirs := ["/home"], lastHeartbeat := 0, connectedAt := 0 })],
      roundRobinIndex := 0, outbox := [], timeoutTimers := [] } 7).2.2 "task-1" []
    { id := "task-1", prompt := "hello", status := TaskStatus.queued,
      workerId := none, cwd := none,
      permissionMode := PermissionMode.acceptEdits, teamMode := false,
      continueSession := false, sessionId := none, attachments := [],
      toolHistory := [], resultText := none, errorMessage := none,
      tokenUsage := ⟨0, 0, 0, 0⟩, discordMessageId := none,
      discordThreadId := none, requestedBy := "u1", createdAt := 0,
      startedAt := none, completedAt := none }
    { id := "w1", name := "w1", status := WorkerStatus.online,
      currentTaskId := none, os := "linux", nodeVersion := "v20",
      claudeCliVersion := "1.0.0", defaultCwd := "/home",
      allowedDirs := ["/home"], lastHeartbeat := 0, connectedAt := 0 }
    1 rfl (by decide) rfl rfl (by decide) rfl
  exact ⟨h.1, h.2.1⟩

/-! ## Claim C3: cancelTask -/

theorem dispatchNext_preserves_absent (s : ManagerState) (now : Int) (tid : String)
    (h : tid ∉ s.queue) :
    alookup (TaskManager.dispatchNext s now).tasks tid = alookup s.tasks tid ∧
    tid ∉ (TaskManager.dispatchNext s now).queue := by
  rcases hq : s.queue with _ | ⟨hd, rest⟩
  · rw [hq] at h
    constructor
    · simp [TaskManager.dispatchNext, hq]
    · simp [TaskManager.dispatchNext, hq]
  · rw [hq] at h
    have hhd : ¬hd = tid := fun hc => h (hc ▸ List.mem_cons_self hd rest)
    have htl : tid ∉ rest := fun hm => h (List.mem_cons_of_mem hd hm)
    by_cases hhdempty : hd = ""
    · constructor
      · simp [TaskManager.dispatchNext, hq, hhdempty]
      · simp only [TaskManager.dispatchNext, hq, hhdempty, if_pos]
        exact hhdempty ▸ h
    · cases hlk : alookup s.tasks hd with
      | none =>
        constructor
        · simp [TaskManager.dispatchNext, hq, hhdempty, hlk]
        · simp only [TaskManager.dispatchNext, hq, hlk, if_neg hhdempty]
          exact htl
      | some task =>
        rcases hga : getAvailableWorker s.workers s.roundRobinIndex none with ⟨ow, rr⟩
        cases ow with
        | none =>
          constructor
          · simp [TaskManager.dispatchNext, hq, hhdempty, hlk, hga]
          · simp only [TaskManager.dispatchNext, hq, hlk, hga, if_neg hhdempty]
            exact hq.symm ▸ h
        | some w =>
          constructor
          · simp only [TaskManager.dispatchNext, hq, hhdempty, hlk, hga,
              if_neg hhdempty]
            exact alookup_aset_ne _ _ _ _ hhd
          · simp only [TaskManager.dispatchNext, hq, hhdempty, hlk, hga,
              if_neg hhdempty]
            exact htl

theorem dispatchNext_outbox_extend (s : ManagerState) (now : Int) :
    ∃ x, (TaskManager.dispatchNext s now).outbox = s.outbox ++ x := by
  rcases hq : s.queue with _ | ⟨hd, rest⟩
  · exact ⟨[], by simp [TaskManager.dispatchNext, hq]⟩
  · by_cases hhdempty : hd = ""
    · exact ⟨[], by simp [TaskManager.dispatchNext, hq, hhdempty]⟩
    · cases hlk : alookup s.tasks hd with
      | none =>
        exact ⟨[], by simp [TaskManager.dispatchNext, hq, hhdempty, hlk]⟩
      | some task =>
        rcases hga : getAvailableWorker s.workers s.roundRobinIndex none with ⟨ow, rr⟩
        cases ow with
        | none =>
          exact ⟨[], by simp [TaskManager.dispatchNext, hq, hhdempty, hlk, hga]⟩
        | some w =>
          simp only [TaskManager.dispatchNext, hq, hlk, hga, if_neg hhdempty]
          exact ⟨_, rfl⟩

theorem not_mem_remove_self (q : List String) (tid : String) (h : q.Nodup) :
    tid ∉ (TaskQueue.remove q tid).1 := by
  unfold TaskQueue.remove
  by_cases hm : tid ∈ q
  · simp only [if_pos hm]
    intro hx
    exact (h.mem_erase_iff.mp hx).1 rfl
  · simp only [if_neg hm]
    exact hm

/-- Claim C3: cancelTask on an unknown task or a task already in a
terminal state (Completed, Failed, Cancelled) is a no-op returning false;
on a Queued task it removes the id from the queue and transitions the
task to Cancelled; on a Running task with an assigned worker it sends a
task:cancel message to that worker and transitions the task to Cancelled
immediately (without waiting for the worker), returning true. -/
theorem cancelTask_spec (st : ManagerState) (taskId reason : String) (now : Int) :
    (alookup st.tasks taskId = none →
      TaskManager.cancelTask st taskId reason now = (st, false)) ∧
    (∀ task, alookup st.tasks taskId = some task →
      task.status = TaskStatus.completed ∨ task.status = TaskStatus.failed ∨
        task.status = TaskStatus.cancelled →
      TaskManager.cancelTask st taskId reason now = (st, false)) ∧
    (∀ task, alookup st.tasks taskId = some task →
      task.status = TaskStatus.queued → st.queue.Nodup →
      (TaskManager.cancelTask st taskId reason now).2 = true ∧
      alookup (TaskManager.cancelTask st taskId reason now).1.tasks taskId =
        some { task with status := TaskStatus.cancelled, completedAt := some now } ∧
      taskId ∉ (TaskManager.cancelTask st taskId reason now).1.queue) ∧
    (∀ task w, alookup st.tasks taskId = some task →
      task.status = TaskStatus.running → task.workerId = some w → w ≠ "" →
      taskId ∉ st.queue →
      (TaskManager.cancelTask st taskId reason now).2 = true ∧
      alookup (TaskManager.cancelTask st taskId reason now).1.tasks taskId =
        some { task with status := TaskStatus.cancelled, completedAt := some now } ∧
      ∃ x, (TaskManager.cancelTask st taskId reason now).1.outbox =
        st.outbox ++
          { target := w, type := "task:cancel", taskId := some taskId,
            workerId := some w, timestamp := now,
            payload := CoordPayload.cancel reason } :: x) := by
  refine ⟨fun h => ?_, fun task hlk hterm => ?_, fun task hlk hst hnodup => ?_,
    fun task w hlk hst hw hwne hnq => ?_⟩
  · simp [TaskManager.cancelTask, h]
  · simp [TaskManager.cancelTask, hlk, hterm]
  · have hterm : ¬(task.status = TaskStatus.completed ∨
        task.status = TaskStatus.failed ∨ task.status = TaskStatus.cancelled) := by
      simp [hst]
    simp only [TaskManager.cancelTask, hlk, if_neg hterm, if_pos hst]
    have hq2 : taskId ∉ (TaskQueue.remove st.queue taskId).1 :=
      not_mem_remove_self st.queue taskId hnodup
    refine ⟨by trivial, ?_, ?_⟩
    · rw [(dispatchNext_preserves_absent _ now taskId hq2).1]
      exact alookup_aset_self ..
    · exact (dispatchNext_preserves_absent _ now taskId hq2).2
  · have hterm : ¬(task.status = TaskStatus.completed ∨
        task.status = TaskStatus.failed ∨ task.status = TaskStatus.cancelled) := by
      simp [hst]
    have hqueued : ¬task.status = TaskStatus.queued := by simp [hst]
    have hcond : task.status = TaskStatus.running ∧ jsTruthyStr (some w) = true := by
      refine ⟨hst, ?_⟩
      simp [jsTruthyStr, hwne]
    simp only [TaskManager.cancelTask, hlk, if_neg hterm, if_neg hqueued, hw,
      Option.getD_some, if_pos hcond]
    refine ⟨by trivial, ?_, ?_⟩
    · rw [(dispatchNext_preserves_absent
        { st with
          outbox := st.outbox ++
            [{ target := w, type := "task:cancel", taskId := some taskId,
               workerId := some w, timestamp := now,
               payload := CoordPayload.cancel reason }],
          tasks := aset st.tasks taskId
            { task with status := TaskStatus.cancelled, workerId := some w,
                        completedAt := some now },
          workers := setWorkerCurrentTask
            (setWorkerStatus st.workers w WorkerStatus.online) w none,
          timeoutTimers := aerase st.timeoutTimers taskId } now taskId hnq).1]
      exact alookup_aset_self ..
    · obtain ⟨x, hx⟩ := dispatchNext_outbox_extend
        { st with
          outbox := st.outbox ++
            [{ target := w, type := "task:cancel", taskId := some taskId,
               workerId := some w, timestamp := now,
               payload := CoordPayload.cancel reason }],
          tasks := aset st.tasks taskId
            { task with status := TaskStatus.cancelled, workerId := some w,
                        completedAt := some now },
          workers := setWorkerCurrentTask
            (setWorkerStatus st.workers w WorkerStatus.online) w none,
          timeoutTimers := aerase st.timeoutTimers taskId } now
      refine ⟨x, ?_⟩
      rw [hx]
      simp

/-- Witness for C3: cancelling a concrete Running task sends task:cancel
to its worker and transitions it to Cancelled, returning true. -/
theorem cancelTask_spec_witness :
    (TaskManager.cancelTask
        { tasks := [("task-1",
            { id := "task-1", prompt := "hello", status := TaskStatus.running,
              workerId := some "w1", cwd := none,
              permissionMode := PermissionMode.acceptEdits, teamMode := false,
              continueSession := false, sessionId := none, attachments := [],
              toolHistory := [], resultText := none, errorMessage := none,
              tokenUsage := ⟨0, 0, 0, 0⟩, discordMessageId := none,
              discordThreadId := none, requestedBy := "u1", createdAt := 0,
              startedAt := some 1, completedAt := none })],
          taskIdCounter := 1, queue := [],
          workers := [("w1",
            { id := "w1", name := "w1", status := WorkerStatus.busy,
              currentTaskId := some "task-1", os := "linux", nodeVersion := "v20",
              claudeCliVersion := "1.0.0", defaultCwd := "/home",
              allowedDirs := ["/home"], lastHeartbeat := 0, connectedAt := 0 })],
          roundRobinIndex := 0, outbox := [],
          timeoutTimers := [("task-1", 600000)] } "task-1" "user" 9).2 = true ∧
    alookup (TaskManager.cancelTask
        { tasks := [("task-1",
            { id := "task-1", prompt := "hello", status := TaskStatus.running,
              workerId := some "w1", cwd := none,
              permissionMode := PermissionMode.acceptEdits, teamMode := false,
              continueSession := false, sessionId := none, attachments := [],
              toolHistory := [], resultText := none, errorMessage := none,
              tokenUsage := ⟨0, 0, 0, 0⟩, discordMessageId := none,
              discordThreadId := none, requestedBy := "u1", createdAt := 0,
              startedAt := some 1, completedAt := none })],
          taskIdCounter := 1, queue := [],
          workers := [("w1",
            { id := "w1", name := "w1", status := WorkerStatus.busy,
              currentTaskId := some "task-1", os := "linux", nodeVersion := "v20",
              claudeCliVersion := "1.0.0", defaultCwd := "/home",
              allowedDirs := ["/home"], lastHeartbeat := 0, connectedAt := 0 })],
          roundRobinIndex := 0, outbox := [],
          timeoutTimers := [("task-1", 600000)] } "task-1" "user" 9).1.tasks "task-1" =
      some
        { id := "task-1", prompt := "hello", status := TaskStatus.cancelled,
          workerId := some "w1", cwd := none,
          permissionMode := PermissionMode.acceptEdits, teamMode := false,
          continueSession := false, sessionId := none, attachments := [],
          toolHistory := [], resultText := none, errorMessage := none,
          tokenUsage := ⟨0, 0, 0, 0⟩, discordMessageId := none,
          discordThreadId := none, requestedBy := "u1", createdAt := 0,
          startedAt := some 1, completedAt := some 9 } := by
  have h := (cancelTask_spec
    { tasks := [("task-1",
        { id := "task-1", prompt := "hello", status := TaskStatus.running,
          workerId := some "w1", cwd := none,
          permissionMode := PermissionMode.acceptEdits, teamMode := false,
          continueSession := false, sessionId := none, attachments := [],
          toolHistory := [], resultText := none, errorMessage := none,
          tokenUsage := ⟨0, 0, 0, 0⟩, discordMessageId := none,
          discordThreadId := none, requestedBy := "u1", createdAt := 0,
          startedAt := some 1, completedAt := none })],
      taskIdCounter := 1, queue := [],
      workers := [("w1",
        { id := "w1", name := "w1", status := WorkerStatus.busy,
          currentTaskId := some "task-1", os := "linux", nodeVersion := "v20",
          claudeCliVersion := "1.0.0", defaultCwd := "/home",
          allowedDirs := ["/home"], lastHeartbeat := 0, connectedAt := 0 })],
      roundRobinIndex := 0, outbox := [],
      timeoutTimers := [("task-1", 600000)] } "task-1" "user" 9).2.2.2
    { id := "task-1", prompt := "hello", status := TaskStatus.running,
      workerId := some "w1", cwd := none,
      permissionMode := PermissionMode.acceptEdits, teamMode := false,
      continueSession := false, sessionId := none, attachments := [],
      toolHistory := [], resultText := none, errorMessage := none,
      tokenUsage := ⟨0, 0, 0, 0⟩, discordMessageId := none,
      discordThreadId := none, requestedBy := "u1", createdAt := 0,
      startedAt := some 1, completedAt := none }
    "w1" rfl rfl rfl (by decide) (by simp)
  exact ⟨h.1, h.2.1⟩

/-! ## Claim C10: createTask on a full queue, and what can move a
stranded Queued task -/

theorem dispatchNext_preserves_absent' (s : ManagerState) (now : Int)
    (tid : String) (t : Task) (h : tid ∉ s.queue)
    (hlk : alookup s.tasks tid = some t) :
    alookup (TaskManager.dispatchNext s now).tasks tid = some t ∧
    tid ∉ (TaskManager.dispatchNext s now).queue :=
  ⟨by rw [(dispatchNext_preserves_absent s now tid h).1]; exact hlk,
   (dispatchNext_preserves_absent s now tid h).2⟩

theorem handleStreamUpdate_preserves_queued (s : ManagerState) (tid : String)
    (t : Task) (hlk : alookup s.tasks tid = some t)
    (hq : t.status = TaskStatus.queued) (hnq : tid ∉ s.queue)
    (tid2 : String) (event : StreamEvent) (now : Int) :
    alookup (TaskManager.handleStreamUpdate s tid2 event now).tasks tid = some t ∧
    tid ∉ (TaskManager.handleStreamUpdate s tid2 event now).queue := by
  cases hlk2 : alookup s.tasks tid2 with
  | none =>
    simp only [TaskManager.handleStreamUpdate, hlk2]
    exact ⟨hlk, hnq⟩
  | some t2 =>
    simp only [TaskManager.handleStreamUpdate, hlk2]
    by_cases hr : t2.status ≠ TaskStatus.running
    · rw [if_pos hr]
      exact ⟨hlk, hnq⟩
    · rw [if_neg hr]
      have hk : tid2 ≠ tid := by
        intro hc
        subst hc
        rw [hlk2] at hlk
        have ht2 : t2 = t := Option.some.inj hlk
        exact hr (by rw [ht2, hq]; simp)
      exact ⟨by rw [alookup_aset_ne s.tasks tid2 tid _ hk]; exact hlk, hnq⟩

theorem handleTaskComplete_preserves_queued (s : ManagerState) (tid : String)
    (t : Task) (hlk : alookup s.tasks tid = some t)
    (hq : t.status = TaskStatus.queued) (hnq : tid ∉ s.queue)
    (tid2 rt : String) (sid : Option String) (tu : TokenUsage) (now : Int) :
    alookup (TaskManager.handleTaskComplete s tid2 rt sid tu now).tasks tid = some t ∧
    tid ∉ (TaskManager.handleTaskComplete s tid2 rt sid tu now).queue := by
  cases hlk2 : alookup s.tasks tid2 with
  | none =>
    simp only [TaskManager.handleTaskComplete, hlk2]
    exact ⟨hlk, hnq⟩
  | some t2 =>
    simp only [TaskManager.handleTaskComplete, hlk2]
    by_cases hr : t2.status ≠ TaskStatus.running
    · rw [if_pos hr]
      exact ⟨hlk, hnq⟩
    · rw [if_neg hr]
      have hk : tid2 ≠ tid := by
        intro hc
        subst hc
        rw [hlk2] at hlk
        have ht2 : t2 = t := Option.some.inj hlk
        exact hr (by rw [ht2, hq]; simp)
      have hlk' : alookup (aset s.tasks tid2
          { t2 with status := TaskStatus.completed, resultText := some rt,
                    sessionId := sid, tokenUsage := tu,
                    completedAt := some now }) tid = some t := by
        rw [alookup_aset_ne s.tasks tid2 tid _ hk]
        exact hlk
      by_cases hwt : jsTruthyStr t2.workerId = true
      · rw [if_pos hwt]
        exact dispatchNext_preserves_absent' _ now tid t hnq hlk'
      · rw [if_neg hwt]
        exact dispatchNext_preserves_absent' _ now tid t hnq hlk'

theorem handleTaskError_preserves_queued (s : ManagerState) (tid : String)
    (t : Task) (hlk : alookup s.tasks tid = some t)
    (hq : t.status = TaskStatus.queued) (hnq : tid ∉ s.queue)
    (tid2 msg : String) (pr : Option String) (tu : TokenUsage) (now : Int) :
    alookup (TaskManager.handleTaskError s tid2 msg pr tu now).tasks tid = some t ∧
    tid ∉ (TaskManager.handleTaskError s tid2 msg pr tu now).queue := by
  cases hlk2 : alookup s.tasks tid2 with
  | none =>
    simp only [TaskManager.handleTaskError, hlk2]
    exact ⟨hlk, hnq⟩
  | some t2 =>
    simp only [TaskManager.handleTaskError, hlk2]
    by_cases hr : t2.status ≠ TaskStatus.running
    · rw [if_pos hr]
      exact ⟨hlk, hnq⟩
    · rw [if_neg hr]
      have hk : tid2 ≠ tid := by
        intro hc
        subst hc
        rw [hlk2] at hlk
        have ht2 : t2 = t := Option.some.inj hlk
        exact hr (by rw [ht2, hq]; simp)
      have hlk' : alookup (aset s.tasks tid2
          { t2 with status := TaskStatus.failed, errorMessage := some msg,
                    resultText := if jsTruthyStr pr then pr else t2.resultText,
                    tokenUsage := tu, completedAt := some now }) tid = some t := by
        rw [alookup_aset_ne s.tasks tid2 tid _ hk]
        exact hlk
      by_cases hwt : jsTruthyStr t2.workerId = true
      · rw [if_pos hwt]
        exact dispatchNext_preserves_absent' _ now tid t hnq hlk'
      · rw [if_neg hwt]
        exact dispatchNext_preserves_absent' _ now tid t hnq hlk'

theorem alookup_map_disconnect (wid : String) (now : Int) :
    ∀ (l : List (String × Task)) (tid : String) (t : Task),
      alookup l tid = some t → ¬t.status = TaskStatus.running →
      alookup (l.map (fun p =>
        if p.2.workerId = some wid ∧ p.2.status = TaskStatus.running then
          (p.1, { p.2 with
            status := TaskStatus.failed,
            errorMessage := some "Worker切断により実行が中断されました",
            completedAt := some now })
        else p)) tid = some t
  | [], tid, t, hlk, _ => by simp [alookup] at hlk
  | p :: rest, tid, t, hlk, hnr => by
    by_cases hk : p.1 = tid
    · simp only [alookup, if_pos hk] at hlk
      have hpt : p.2 = t := Option.some.inj hlk
      have hcond : ¬(p.2.workerId = some wid ∧ p.2.status = TaskStatus.running) := by
        rw [hpt]
        rintro ⟨_, hr⟩
        exact hnr hr
      simp only [List.map_cons, if_neg hcond, alookup, if_pos hk]
      rw [hpt]
    · simp only [alookup, if_neg hk] at hlk
      have IH := alookup_map_disconnect wid now rest tid t hlk hnr
      by_cases hcond : p.2.workerId = some wid ∧ p.2.status = TaskStatus.running
      · simp only [List.map_cons, if_pos hcond, alookup, if_neg hk]
        exact IH
      · simp only [List.map_cons, if_neg hcond, alookup, if_neg hk]
        exact IH

theorem handleWorkerDisconnect_preserves_queued (s : ManagerState) (tid : String)
    (t : Task) (hlk : alookup s.tasks tid = some t)
    (hq : t.status = TaskStatus.queued) (hnq : tid ∉ s.queue)
    (wid : String) (now : Int) :
    alookup (TaskManager.handleWorkerDisconnect s wid now).tasks tid = some t ∧
    tid ∉ (TaskManager.handleWorkerDisconnect s wid now).queue := by
  constructor
  · simp only [TaskManager.handleWorkerDisconnect]
    exact alookup_map_disconnect wid now s.tasks tid t hlk (by rw [hq]; simp)
  · exact hnq

theorem cancelTask_preserves_other_queued (s : ManagerState) (tid : String)
    (t : Task) (hlk : alookup s.tasks tid = some t)
    (_hq : t.status = TaskStatus.queued) (hnq : tid ∉ s.queue)
    (tid2 reason : String) (now : Int) (hk : tid2 ≠ tid) :
    alookup (TaskManager.cancelTask s tid2 reason now).1.tasks tid = some t ∧
    tid ∉ (TaskManager.cancelTask s tid2 reason now).1.queue := by
  cases hlk2 : alookup s.tasks tid2 with
  | none =>
    simp only [TaskManager.cancelTask, hlk2]
    exact ⟨hlk, hnq⟩
  | some t2 =>
    simp only [TaskManager.cancelTask, hlk2]
    by_cases hterm : t2.status = TaskStatus.completed ∨ t2.status = TaskStatus.failed ∨
        t2.status = TaskStatus.cancelled
    · rw [if_pos hterm]
      exact ⟨hlk, hnq⟩
    · rw [if_neg hterm]
      have hlk' : alookup (aset s.tasks tid2
          { t2 with status := TaskStatus.cancelled, completedAt := some now })
          tid = some t := by
        rw [alookup_aset_ne s.tasks tid2 tid _ hk]
        exact hlk
      by_cases hq2 : t2.status = TaskStatus.queued
      · rw [if_pos hq2]
        have hnq' : tid ∉ (TaskQueue.remove s.queue tid2).1 := by
          unfold TaskQueue.remove
          by_cases hm : tid2 ∈ s.queue
          · rw [if_pos hm]
            intro hx
            exact hnq (List.mem_of_mem_erase hx)
          · rw [if_neg hm]
            exact hnq
        exact dispatchNext_preserves_absent' _ now tid t hnq' hlk'
      · rw [if_neg hq2]
        by_cases hcond : t2.status = TaskStatus.running ∧ jsTruthyStr t2.workerId = true
        · rw [if_pos hcond]
          exact dispatchNext_preserves_absent' _ now tid t hnq hlk'
        · rw [if_neg hcond]
          exact dispatchNext_preserves_absent' _ now tid t hnq hlk

theorem cancelTask_self_queued (s : ManagerState) (tid : String) (t : Task)
    (hlk : alookup s.tasks tid = some t) (hq : t.status = TaskStatus.queued)
    (hnq : tid ∉ s.queue) (reason : String) (now : Int) :
    (TaskManager.cancelTask s tid reason now).2 = true ∧
    alookup (TaskManager.cancelTask s tid reason now).1.tasks tid =
      some { t with status := TaskStatus.cancelled, completedAt := some now } := by
  have hterm : ¬(t.status = TaskStatus.completed ∨ t.status = TaskStatus.failed ∨
      t.status = TaskStatus.cancelled) := by simp [hq]
  simp only [TaskManager.cancelTask, hlk, if_neg hterm, if_pos hq]
  have hnq' : tid ∉ (TaskQueue.remove s.queue tid).1 := by
    unfold TaskQueue.remove
    by_cases hm : tid ∈ s.queue
    · exact absurd hm hnq
    · rw [if_neg hm]
      exact hnq
  refine ⟨by trivial, ?_⟩
  exact (dispatchNext_preserves_absent' _ now tid _ hnq' (alookup_aset_self ..)).1

/-- Claim C10: createTask never fails and discards the queue's
rejection: on a state whose queue already holds 50 ids a fresh task is
still allocated (id `task-<counter+1>`), stored Queued in the task map
and returned, while the queue is unchanged — enqueue's false return is
ignored. Moreover a Queued task whose id is not in the queue is
untouched by dispatchNext, stream updates, completion and error
handlers, worker disconnects, and cancellation of other tasks; only
cancelTask of its own id moves it (to Cancelled, returning true). -/
theorem createTask_full_queue_spec (now : Int) :
    (∀ (st : ManagerState) (options : TaskCreateOptions),
      st.queue.length = 50 →
      (TaskManager.createTask st options now).2.id =
        "task-" ++ toString (st.taskIdCounter + 1) ∧
      (TaskManager.createTask st options now).2.status = TaskStatus.queued ∧
      alookup (TaskManager.createTask st options now).1.tasks
          ("task-" ++ toString (st.taskIdCounter + 1)) =
        some (TaskManager.createTask st options now).2 ∧
      (TaskManager.createTask st options now).1.queue = st.queue ∧
      (TaskQueue.enqueue st.queue
        ("task-" ++ toString (st.taskIdCounter + 1))).2 = false) ∧
    (∀ (s : ManagerState) (tid : String) (t : Task),
      alookup s.tasks tid = some t → t.status = TaskStatus.queued →
      tid ∉ s.queue →
      (alookup (TaskManager.dispatchNext s now).tasks tid = some t ∧
        tid ∉ (TaskManager.dispatchNext s now).queue) ∧
      (∀ tid2 event,
        alookup (TaskManager.handleStreamUpdate s tid2 event now).tasks tid =
          some t ∧
        tid ∉ (TaskManager.handleStreamUpdate s tid2 event now).queue) ∧
      (∀ tid2 rt sid tu,
        alookup (TaskManager.handleTaskComplete s tid2 rt sid tu now).tasks tid =
          some t ∧
        tid ∉ (TaskManager.handleTaskComplete s tid2 rt sid tu now).queue) ∧
      (∀ tid2 msg pr tu,
        alookup (TaskManager.handleTaskError s tid2 msg pr tu now).tasks tid =
          some t ∧
        tid ∉ (TaskManager.handleTaskError s tid2 msg pr tu now).queue) ∧
      (∀ wid,
        alookup (TaskManager.handleWorkerDisconnect s wid now).tasks tid =
          some t ∧
        tid ∉ (TaskManager.handleWorkerDisconnect s wid now).queue) ∧
      (∀ tid2 reason, tid2 ≠ tid →
        alookup (TaskManager.cancelTask s tid2 reason now).1.tasks tid = some t ∧
        tid ∉ (TaskManager.cancelTask s tid2 reason now).1.queue) ∧
      (∀ reason,
        (TaskManager.cancelTask s tid reason now).2 = true ∧
        alookup (TaskManager.cancelTask s tid reason now).1.tasks tid =
          some { t with status := TaskStatus.cancelled,
                        completedAt := some now })) := by
  constructor
  · intro st options hfull
    have hfullge : st.queue.length ≥ TASK_MAX_QUEUE_SIZE := by
      rw [hfull]
      simp [TASK_MAX_QUEUE_SIZE]
    refine ⟨rfl, rfl, ?_, ?_, ?_⟩
    · exact alookup_aset_self ..
    · simp only [TaskManager.createTask, TaskQueue.enqueue, if_pos hfullge]
    · simp only [TaskQueue.enqueue, if_pos hfullge]
  · intro s tid t hlk hq hnq
    refine ⟨dispatchNext_preserves_absent' s now tid t hnq hlk,
      fun tid2 event =>
        handleStreamUpdate_preserves_queued s tid t hlk hq hnq tid2 event now,
      fun tid2 rt sid tu =>
        handleTaskComplete_preserves_queued s tid t hlk hq hnq tid2 rt sid tu now,
      fun tid2 msg pr tu =>
        handleTaskError_preserves_queued s tid t hlk hq hnq tid2 msg pr tu now,
      fun wid =>
        handleWorkerDisconnect_preserves_queued s tid t hlk hq hnq wid now,
      fun tid2 reason hk =>
        cancelTask_preserves_other_queued s tid t hlk hq hnq tid2 reason now hk,
      fun reason =>
        cancelTask_self_queued s tid t hlk hq hnq reason now⟩

/-- Witness for C10: a concrete state with a 50-id queue still allocates
and stores task-1 Queued without enqueuing it, and a concrete stranded
Queued task is untouched by dispatchNext but cancellable. -/
theorem createTask_full_queue_spec_witness :
    ((TaskManager.createTask
        { tasks := [], taskIdCounter := 0, queue := List.replicate 50 "x",
          workers := [], roundRobinIndex := 0, outbox := [],
          timeoutTimers := [] }
        { prompt := "hello", requestedBy := "u1", workerId := none, cwd := none,
          permissionMode := none, teamMode := none, continueSession := none,
          sessionId := none } 4).1.queue = List.replicate 50 "x" ∧
      (TaskQueue.enqueue (List.replicate 50 "x") "task-1").2 = false) ∧
    ((TaskManager.cancelTask
        { tasks := [("task-1",
            { id := "task-1", prompt := "hello", status := TaskStatus.queued,
              workerId := none, cwd := none,
              permissionMode := PermissionMode.acceptEdits, teamMode := false,
              continueSession := false, sessionId := none, attachments := [],
              toolHistory := [], resultText := none, errorMessage := none,
              tokenUsage := ⟨0, 0, 0, 0⟩, discordMessageId := none,
              discordThreadId := none, requestedBy := "u1", createdAt := 4,
              startedAt := none, completedAt := none })],
          taskIdCounter := 1, queue := [], workers := [], roundRobinIndex := 0,
          outbox := [], timeoutTimers := [] } "task-1" "stranded" 4).2 = true ∧
      alookup (TaskManager.dispatchNext
        { tasks := [("task-1",
            { id := "task-1", prompt := "hello", status := TaskStatus.queued,
              workerId := none, cwd := none,
              permissionMode := PermissionMode.acceptEdits, teamMode := false,
              continueSession := false, sessionId := none, attachments := [],
              toolHistory := [], resultText := none, errorMessage := none,
              tokenUsage := ⟨0, 0, 0, 0⟩, discordMessageId := none,
              discordThreadId := none, requestedBy := "u1", createdAt := 4,
              startedAt := none, completedAt := none })],
          taskIdCounter := 1, queue := [], workers := [], roundRobinIndex := 0,
          outbox := [], timeoutTimers := [] } 4).tasks "task-1" =
        some
          { id := "task-1", prompt := "hello", status := TaskStatus.queued,
            workerId := none, cwd := none,
            permissionMode := PermissionMode.acceptEdits, teamMode := false,
            continueSession := false, sessionId := none, attachments := [],
            toolHistory := [], resultText := none, errorMessage := none,
            tokenUsage := ⟨0, 0, 0, 0⟩, discordMessageId := none,
            discordThreadId := none, requestedBy := "u1", createdAt := 4,
            startedAt := none, completedAt := none }) := by
  have h1 := (createTask_full_queue_spec 4).1
    { tasks := [], taskIdCounter := 0, queue := List.replicate 50 "x",
      workers := [], roundRobinIndex := 0, outbox := [], timeoutTimers := [] }
    { prompt := "hello", requestedBy := "u1", workerId := none, cwd := none,
      permissionMode := none, teamMode := none, continueSession := none,
      sessionId := none }
    (by simp)
  have h2 := (createTask_full_queue_spec 4).2
    { tasks := [("task-1",
        { id := "task-1", prompt := "hello", status := TaskStatus.queued,
          workerId := none, cwd := none,
          permissionMode := PermissionMode.acceptEdits, teamMode := false,
          continueSession := false, sessionId := none, attachments := [],
          toolHistory := [], resultText := none, errorMessage := none,
          tokenUsage := ⟨0, 0, 0, 0⟩, discordMessageId := none,
          discordThreadId := none, requestedBy := "u1", createdAt := 4,
          startedAt := none, completedAt := none })],
      taskIdCounter := 1, queue := [], workers := [], roundRobinIndex := 0,
      outbox := [], timeoutTimers := [] } "task-1"
    { id := "task-1", prompt := "hello", status := TaskStatus.queued,
      workerId := none, cwd := none,
      permissionMode := PermissionMode.acceptEdits, teamMode := false,
      continueSession := false, sessionId := none, attachments := [],
      toolHistory := [], resultText := none, errorMessage := none,
      tokenUsage := ⟨0, 0, 0, 0⟩, discordMessageId := none,
      discordThreadId := none, requestedBy := "u1", createdAt := 4,
      startedAt := none, completedAt := none }
    rfl rfl (by simp)
  exact ⟨⟨h1.2.2.2.1, h1.2.2.2.2⟩, ⟨(h2.2.2.2.2.2.2 "stranded").1, h2.1.1⟩⟩

/-! ## Claim C1: token-usage counters are monotone

The worker relays each parsed event as a task:stream payload, sending
the cumulative accumulator snapshot for token_usage events
(WorkerApp.handleStreamEvent); the Coordinator folds each payload into
the task (the token_usage case overwrites the counters).
`relayPipeline` composes the two, returning the successive task states
on the Coordinator. -/

/-- Component-wise order on token counters. -/
def tokenLe (a b : TokenUsage) : Prop :=
  a.inputTokens ≤ b.inputTokens ∧ a.outputTokens ≤ b.outputTokens ∧
  a.cacheReadTokens ≤ b.cacheReadTokens ∧ a.cacheWriteTokens ≤ b.cacheWriteTokens

/-- All four counter deltas are non-negative. -/
def tokenNonneg (d : TokenUsage) : Prop :=
  0 ≤ d.inputTokens ∧ 0 ≤ d.outputTokens ∧
  0 ≤ d.cacheReadTokens ∧ 0 ≤ d.cacheWriteTokens

instance (a b : TokenUsage) : Decidable (tokenLe a b) := by
  unfold tokenLe; infer_instance

instance (d : TokenUsage) : Decidable (tokenNonneg d) := by
  unfold tokenNonneg; infer_instance

theorem tokenLe_refl (a : TokenUsage) : tokenLe a a :=
  ⟨le_refl _, le_refl _, le_refl _, le_refl _⟩

theorem tokenLe_trans {a b c : TokenUsage} (h1 : tokenLe a b) (h2 : tokenLe b c) :
    tokenLe a c :=
  ⟨le_trans h1.1 h2.1, le_trans h1.2.1 h2.2.1, le_trans h1.2.2.1 h2.2.2.1,
   le_trans h1.2.2.2 h2.2.2.2⟩

theorem tokenLe_add_nonneg (acc d : TokenUsage) (h : tokenNonneg d) :
    tokenLe acc (addTokenUsage acc d) :=
  ⟨by simp [addTokenUsage]; exact h.1, by simp [addTokenUsage]; exact h.2.1,
   by simp [addTokenUsage]; exact h.2.2.1, by simp [addTokenUsage]; exact h.2.2.2⟩

/-- The worker-to-coordinator relay of one stream event after another:
run WorkerApp.handleStreamEvent, extract the task:stream payloads it
sent, fold them into the task with the manager's stream-update switch,
and continue with the new worker state. Returns the successive task
states. -/
def relayPipeline (now : Int) (qid : String) :
    WorkerTaskState → Task → List StreamEvent → List Task
  | _, _, [] => []
  | w, t, e :: es =>
    let step := WorkerApp.handleStreamEvent w e qid
    let payloads := step.2.filterMap (fun m =>
      match m.payload with
      | WorkerOutPayload.stream p => if m.type = "task:stream" then some p else none
      | _ => none)
    let t1 := payloads.foldl
      (fun acc p => TaskManager.applyStreamEventToTask acc now p) t
    t1 :: relayPipeline now qid step.1 t1 es

/-- Claim C1: for a Running task, over any sequence of stream events the
Worker parses and relays, the task's token-usage counters on the
Coordinator are monotonically non-decreasing, provided every parsed
token_usage delta is non-negative: the Worker sums each delta into its
accumulator and sends the cumulative snapshot, and the Coordinator
overwrites the counters with each snapshot. `tokenLe t0.tokenUsage
w0.accumulatedTokens` holds initially since both start zeroed. -/
theorem tokenUsage_monotone (now : Int) (qid tid : String) :
    ∀ (events : List StreamEvent) (t0 : Task) (w0 : WorkerTaskState),
      w0.currentTaskId = some tid →
      t0.status = TaskStatus.running →
      tokenLe t0.tokenUsage w0.accumulatedTokens →
      (∀ d, StreamEvent.tokenUsage d ∈ events → tokenNonneg d) →
      List.Chain' (fun a b => tokenLe a.tokenUsage b.tokenUsage)
        (t0 :: relayPipeline now qid w0 t0 events)
  | [], t0, w0, _, _, _, _ => by simp [relayPipeline]
  | StreamEvent.tokenUsage d :: es, t0, w0, htask, hrun, hsync, hnn => by
    simp only [relayPipeline, WorkerApp.handleStreamEvent, htask, List.filterMap,
      List.foldl]
    rw [List.chain'_cons]
    have hd : tokenNonneg d := hnn d (List.mem_cons_self _ _)
    refine ⟨?_, ?_⟩
    · exact tokenLe_trans hsync (tokenLe_add_nonneg w0.accumulatedTokens d hd)
    · exact tokenUsage_monotone now qid tid es _ _ rfl hrun (tokenLe_refl _)
        (fun d2 hm => hnn d2 (List.mem_cons_of_mem _ hm))
  | StreamEvent.assistantMessage text :: es, t0, w0, htask, hrun, hsync, hnn => by
    simp only [relayPipeline, WorkerApp.handleStreamEvent, htask, List.filterMap,
      List.foldl]
    rw [List.chain'_cons]
    refine ⟨tokenLe_refl _, ?_⟩
    exact tokenUsage_monotone now qid tid es _ _ htask hrun hsync
      (fun d2 hm => hnn d2 (List.mem_cons_of_mem _ hm))
  | StreamEvent.toolUseBegin toolName summary :: es, t0, w0, htask, hrun, hsync, hnn => by
    by_cases hask : toolName = "AskUserQuestion"
    · simp only [relayPipeline, WorkerApp.handleStreamEvent, htask, if_pos hask,
        List.filterMap, List.foldl]
      rw [List.chain'_cons]
      refine ⟨tokenLe_refl _, ?_⟩
      exact tokenUsage_monotone now qid tid es _ _ htask hrun hsync
        (fun d2 hm => hnn d2 (List.mem_cons_of_mem _ hm))
    · simp only [relayPipeline, WorkerApp.handleStreamEvent, htask, if_neg hask,
        List.filterMap, List.foldl]
      rw [List.chain'_cons]
      refine ⟨tokenLe_refl _, ?_⟩
      exact tokenUsage_monotone now qid tid es _ _ htask hrun hsync
        (fun d2 hm => hnn d2 (List.mem_cons_of_mem _ hm))
  | StreamEvent.toolUseEnd toolName summary success :: es, t0, w0, htask, hrun, hsync, hnn => by
    simp only [relayPipeline, WorkerApp.handleStreamEvent, htask, List.filterMap,
      List.foldl]
    rw [List.chain'_cons]
    refine ⟨tokenLe_refl _, ?_⟩
    exact tokenUsage_monotone now qid tid es _ _ htask hrun hsync
      (fun d2 hm => hnn d2 (List.mem_cons_of_mem _ hm))
  | StreamEvent.systemMessage msg :: es, t0, w0, htask, hrun, hsync, hnn => by
    simp only [relayPipeline, WorkerApp.handleStreamEvent, htask, List.filterMap,
      List.foldl]
    rw [List.chain'_cons]
    refine ⟨tokenLe_refl _, ?_⟩
    exact tokenUsage_monotone now qid tid es _ _ htask hrun hsync
      (fun d2 hm => hnn d2 (List.mem_cons_of_mem _ hm))
  | StreamEvent.result text sid :: es, t0, w0, htask, hrun, hsync, hnn => by
    simp only [relayPipeline, WorkerApp.handleStreamEvent, htask, List.filterMap,
      List.foldl]
    rw [List.chain'_cons]
    refine ⟨tokenLe_refl _, ?_⟩
    exact tokenUsage_monotone now qid tid es _ _ rfl hrun hsync
      (fun d2 hm => hnn d2 (List.mem_cons_of_mem _ hm))
  | StreamEvent.error msg :: es, t0, w0, htask, hrun, hsync, hnn => by
    simp only [relayPipeline, WorkerApp.handleStreamEvent, htask, List.filterMap,
      List.foldl]
    rw [List.chain'_cons]
    refine ⟨tokenLe_refl _, ?_⟩
    exact tokenUsage_monotone now qid tid es _ _ htask hrun hsync
      (fun d2 hm => hnn d2 (List.mem_cons_of_mem _ hm))
  | StreamEvent.rateLimit a b c :: es, t0, w0, htask, hrun, hsync, hnn => by
    simp only [relayPipeline, WorkerApp.handleStreamEvent, htask, List.filterMap,
      List.foldl]
    rw [List.chain'_cons]
    refine ⟨tokenLe_refl _, ?_⟩
    exact tokenUsage_monotone now qid tid es _ _ htask hrun hsync
      (fun d2 hm => hnn d2 (List.mem_cons_of_mem _ hm))

/-- Witness for C1: a concrete Running task fed two cumulative
token_usage snapshots (with an assistant message in between) has
monotonically non-decreasing counters. -/
theorem tokenUsage_monotone_witness :
    List.Chain' (fun a b => tokenLe a.tokenUsage b.tokenUsage)
      ({ id := "task-1", prompt := "hello", status := TaskStatus.running,
         workerId := some "w1", cwd := none,
         permissionMode := PermissionMode.acceptEdits, teamMode := false,
         continueSession := false, sessionId := none, attachments := [],
         toolHistory := [], resultText := none, errorMessage := none,
         tokenUsage := ⟨0, 0, 0, 0⟩, discordMessageId := none,
         discordThreadId := none, requestedBy := "u1", createdAt := 0,
         startedAt := some 1, completedAt := none } ::
        relayPipeline 5 "q"
          { currentTaskId := some "task-1", taskStartTime := 0,
            accumulatedTokens := ⟨0, 0, 0, 0⟩, lastResultText := "",
            lastSessionId := none, stderrBuffer := "" }
          { id := "task-1", prompt := "hello", status := TaskStatus.running,
            workerId := some "w1", cwd := none,
            permissionMode := PermissionMode.acceptEdits, teamMode := false,
            continueSession := false, sessionId := none, attachments := [],
            toolHistory := [], resultText := none, errorMessage := none,
            tokenUsage := ⟨0, 0, 0, 0⟩, discordMessageId := none,
            discordThreadId := none, requestedBy := "u1", createdAt := 0,
            startedAt := some 1, completedAt := none }
          [StreamEvent.tokenUsage ⟨1, 2, 0, 0⟩,
           StreamEvent.assistantMessage "hi",
           StreamEvent.tokenUsage ⟨3, 0, 1, 0⟩]) :=
  tokenUsage_monotone 5 "q" "task-1"
    [StreamEvent.tokenUsage ⟨1, 2, 0, 0⟩,
     StreamEvent.assistantMessage "hi",
     StreamEvent.tokenUsage ⟨3, 0, 1, 0⟩]
    { id := "task-1", prompt := "hello", status := TaskStatus.running,
      workerId := some "w1", cwd := none,
      permissionMode := PermissionMode.acceptEdits, teamMode := false,
      continueSession := false, sessionId := none, attachments := [],
      toolHistory := [], resultText := none, errorMessage := none,
      tokenUsage := ⟨0, 0, 0, 0⟩, discordMessageId := none,
      discordThreadId := none, requestedBy := "u1", createdAt := 0,
      startedAt := some 1, completedAt := none }
    { currentTaskId := some "task-1", taskStartTime := 0,
      accumulatedTokens := ⟨0, 0, 0, 0⟩, lastResultText := "",
      lastSessionId := none, stderrBuffer := "" }
    rfl rfl (tokenLe_refl ⟨0, 0, 0, 0⟩)
    (by
      intro d hd
      simp at hd
      rcases hd with h | h <;> subst h <;> decide)

end ClaudeDiscord
